import Mathlib

/-!
Verification of the indicator & classification engine of the etf-monitor-system
repository (`technical_analysis.py`, class `ETFTechnicalAnalyzer`).

The engine is shallowly embedded over exact rationals:

* prices are a `List ℚ` (the `Close` column of the input DataFrame);
* pandas/NumPy floating-point special values are modelled by the type `F`
  (`nan`, `inf`, `ninf`, or a finite rational), with division following the
  NumPy semantics `x/0 = ±inf` for `x ≠ 0` and `0/0 = nan` — pandas series
  division never raises;
* values that pandas reports as `NaN` during an indicator's warm-up window
  are modelled with `Option` (`none` = `NaN`, mirroring the `pd.notna` tests
  in the source);
* Python's `round(x, n)` (round-half-to-even) is modelled by `roundTo`;
* the rolling standard deviation used by the Bollinger bands is an
  irrational square root, hence not representable as a computable rational
  function; it is passed to the analysis as an explicit series parameter
  `stdFn : ℕ → ℚ` (its warm-up masking, which is all the verified claims
  depend on, is applied by `std_at` exactly as pandas does).
-/

/- Batteries seals the rational-number operations behind `@[irreducible]`,
which prevents `decide` from evaluating concrete rational expressions; all
proofs below remain kernel-checked with the standard axioms. -/
attribute [local semireducible] Rat.add Rat.mul Rat.inv Rat.sub

set_option maxRecDepth 40000

/-- Round a rational to the nearest integer, ties to even
(the semantics of Python's builtin `round`). -/
def roundHalfEven (q : ℚ) : ℤ :=
  let f : ℤ := ⌊q⌋
  let r : ℚ := q - f
  if r < 1/2 then f
  else if 1/2 < r then f + 1
  else if f % 2 = 0 then f else f + 1

/-- Python's `round(q, nd)`: round to `nd` decimal places, ties to even. -/
def roundTo (q : ℚ) (nd : ℕ) : ℚ :=
  (roundHalfEven (q * 10 ^ nd) : ℚ) / 10 ^ nd

/-- A pandas/NumPy floating-point value: not-a-number, the two infinities,
or a finite value (modelled exactly as a rational). -/
inductive F where
  | nan : F
  | inf : F
  | ninf : F
  | fin : ℚ → F
deriving DecidableEq

namespace F

/-- IEEE addition as used by pandas element-wise `+`. -/
def add : F → F → F
  | .nan, _ => .nan
  | _, .nan => .nan
  | .inf, .ninf => .nan
  | .ninf, .inf => .nan
  | .inf, _ => .inf
  | _, .inf => .inf
  | .ninf, _ => .ninf
  | _, .ninf => .ninf
  | .fin a, .fin b => .fin (a + b)

/-- IEEE negation. -/
def neg : F → F
  | .nan => .nan
  | .inf => .ninf
  | .ninf => .inf
  | .fin a => .fin (-a)

/-- IEEE subtraction. -/
def sub (a b : F) : F := a.add b.neg

/-- IEEE/NumPy division: never raises; `x/0` is `±inf` for `x ≠ 0`,
`0/0` is `nan` (positive-zero conventions, which is what the nonnegative
divisors of the source produce). -/
def div : F → F → F
  | .nan, _ => .nan
  | _, .nan => .nan
  | .inf, .inf => .nan
  | .inf, .ninf => .nan
  | .ninf, .inf => .nan
  | .ninf, .ninf => .nan
  | .inf, .fin b => if b < 0 then .ninf else .inf
  | .ninf, .fin b => if b < 0 then .inf else .ninf
  | .fin _, .inf => .fin 0
  | .fin _, .ninf => .fin 0
  | .fin a, .fin b =>
      if b = 0 then (if a = 0 then .nan else if 0 < a then .inf else .ninf)
      else .fin (a / b)

/-- Multiplication by the constant 100 (the only multiplication the engine
applies to a possibly non-finite value, in the percentage changes). -/
def mul100 : F → F
  | .nan => .nan
  | .inf => .inf
  | .ninf => .ninf
  | .fin a => .fin (a * 100)

/-- IEEE strict comparison: any comparison with `nan` is false. -/
def ltb : F → F → Bool
  | .nan, _ => false
  | _, .nan => false
  | .inf, _ => false
  | .ninf, .ninf => false
  | .ninf, _ => true
  | .fin _, .inf => true
  | .fin _, .ninf => false
  | .fin a, .fin b => decide (a < b)

/-- IEEE non-strict comparison: any comparison with `nan` is false. -/
def leb : F → F → Bool
  | .nan, _ => false
  | _, .nan => false
  | .inf, .inf => true
  | .inf, _ => false
  | .ninf, _ => true
  | .fin _, .inf => true
  | .fin _, .ninf => false
  | .fin a, .fin b => decide (a ≤ b)

/-- Python truthiness of a float: only (positive or negative) zero is falsy;
`nan` and the infinities are truthy. -/
def truthy : F → Bool
  | .fin a => decide (a ≠ 0)
  | _ => true

/-- Python `round` on a float: finite values round half-to-even,
special values pass through. -/
def roundF : F → ℕ → F
  | .fin a, nd => .fin (roundTo a nd)
  | v, _ => v

/-- `pd.notna`-style conversion: `nan` becomes `none` (Python `None`),
everything else is kept. -/
def ofOpt : Option ℚ → F
  | none => .nan
  | some q => .fin q

end F

/-- `series.iloc[-i]` (`i ≥ 1`): the `i`-th element from the end, when the
series is long enough. -/
def ilocNeg (xs : List α) (i : ℕ) : Option α :=
  xs.get? (xs.length - i)

/-- The configuration of `ETFTechnicalAnalyzer.__init__`, with the defaults
read by `self.config.get(...)`. -/
structure Config where
  ema_fast_period : ℕ := 13
  sma_slow_period : ℕ := 50
  rsi_period : ℕ := 14
  rsi_buy_low : ℚ := 55
  rsi_buy_high : ℚ := 65
  rsi_overbought : ℚ := 75
  rsi_oversold : ℚ := 25
  macd_fast : ℕ := 12
  macd_slow : ℕ := 26
  macd_signal_period : ℕ := 9
  bb_period : ℕ := 20
  bb_std : ℚ := 2
  days_above_ma : ℕ := 3
  pullback_max_distance : ℚ := 5
  pullback_limit_offset : ℚ := 2
deriving DecidableEq

/-- The default configuration (`ETFTechnicalAnalyzer()` with no overrides). -/
def defaultConfig : Config := {}

/-- Smoothing factor of `ewm(span=s)`: `α = 2/(s+1)`. -/
def spanAlpha (s : ℕ) : ℚ := 2 / ((s : ℚ) + 1)

/-- Smoothing factor of `ewm(com=c)`: `α = 1/(1+c)`. -/
def comAlpha (c : ℕ) : ℚ := 1 / (1 + (c : ℚ))

/-- `calculate_ema` / the `ewm(span=period, adjust=False).mean()` recurrence:
`y₀ = x₀`, `yₜ = (1-α)·yₜ₋₁ + α·xₜ`.  Defined at every index (pandas emits no
NaN for `adjust=False` on a NaN-free series). -/
def ema_at (period : ℕ) (x : ℕ → ℚ) : ℕ → ℚ
  | 0 => x 0
  | t + 1 => (1 - spanAlpha period) * ema_at period x t + spanAlpha period * x (t + 1)

/-- `calculate_sma` / `rolling(window=period).mean()`: arithmetic mean of the
trailing window, `NaN` (`none`) until `period` points exist. -/
def sma_at (period : ℕ) (x : ℕ → ℚ) (t : ℕ) : Option ℚ :=
  if t + 1 < period then none
  else some (((List.range period).map (fun j => x (t - j))).sum / (period : ℚ))

/-- Numerator of the `adjust=True` (default) exponentially weighted mean:
`Σ_{i=0..t} (1-α)^i · x_{t-i}`, computed by the recurrence
`n₀ = x₀`, `nₜ = (1-α)·nₜ₋₁ + xₜ`. -/
def ewmNum (α : ℚ) (x : ℕ → ℚ) : ℕ → ℚ
  | 0 => x 0
  | t + 1 => (1 - α) * ewmNum α x t + x (t + 1)

/-- Denominator of the `adjust=True` exponentially weighted mean:
`Σ_{i=0..t} (1-α)^i`. -/
def ewmDen (α : ℚ) : ℕ → ℚ
  | 0 => 1
  | t + 1 => (1 - α) * ewmDen α t + 1

/-- The `adjust=True` (pandas default) exponentially weighted mean used for
the RSI averages. -/
def ewmMean (α : ℚ) (x : ℕ → ℚ) (t : ℕ) : ℚ := ewmNum α x t / ewmDen α t

/-- `delta = prices.diff()` at index `t ≥ 1`. -/
def rsi_delta (x : ℕ → ℚ) (t : ℕ) : ℚ := x t - x (t - 1)

/-- `gains = delta.where(delta > 0, 0)`: the positive deltas, and `0`
elsewhere (index 0's NaN delta also compares false, giving `0`). -/
def rsi_gains (x : ℕ → ℚ) (t : ℕ) : ℚ :=
  if 1 ≤ t ∧ 0 < rsi_delta x t then rsi_delta x t else 0

/-- `losses = (-delta).where(delta < 0, 0)`: the negated negative deltas,
and `0` elsewhere. -/
def rsi_losses (x : ℕ → ℚ) (t : ℕ) : ℚ :=
  if 1 ≤ t ∧ rsi_delta x t < 0 then -(rsi_delta x t) else 0

/-- `avg_gain = gains.ewm(com=period-1, min_periods=period).mean()`:
`NaN` (`none`) until `period` observations exist, the weighted mean after. -/
def avg_gain (cfg : Config) (x : ℕ → ℚ) (t : ℕ) : Option ℚ :=
  if t + 1 < cfg.rsi_period then none
  else some (ewmMean (comAlpha (cfg.rsi_period - 1)) (rsi_gains x) t)

/-- `avg_loss = losses.ewm(com=period-1, min_periods=period).mean()`. -/
def avg_loss (cfg : Config) (x : ℕ → ℚ) (t : ℕ) : Option ℚ :=
  if t + 1 < cfg.rsi_period then none
  else some (ewmMean (comAlpha (cfg.rsi_period - 1)) (rsi_losses x) t)

/-- `calculate_rsi` at index `t`:
`rs = avg_gain / avg_loss; rsi = 100 - (100 / (1 + rs))`, evaluated with the
pandas floating-point semantics (`x/0 = inf` for `x > 0`, `0/0 = nan`, and
`nan` propagating through every operation — no exception is ever raised). -/
def rsi_at (cfg : Config) (x : ℕ → ℚ) (t : ℕ) : F :=
  let rs := F.div (F.ofOpt (avg_gain cfg x t)) (F.ofOpt (avg_loss cfg x t))
  F.sub (.fin 100) (F.div (.fin 100) (F.add (.fin 1) rs))

/-- `calculate_macd`: `macd_line = ema(fast) - ema(slow)` (span-based,
`adjust=False`). -/
def macd_line_at (cfg : Config) (x : ℕ → ℚ) (t : ℕ) : ℚ :=
  ema_at cfg.macd_fast x t - ema_at cfg.macd_slow x t

/-- `calculate_macd`: `signal_line = macd_line.ewm(span=macd_signal,
adjust=False).mean()`. -/
def macd_signal_line_at (cfg : Config) (x : ℕ → ℚ) (t : ℕ) : ℚ :=
  ema_at cfg.macd_signal_period (macd_line_at cfg x) t

/-- `calculate_macd`: `histogram = macd_line - signal_line`. -/
def macd_histogram_at (cfg : Config) (x : ℕ → ℚ) (t : ℕ) : ℚ :=
  macd_line_at cfg x t - macd_signal_line_at cfg x t

/-- `calculate_bollinger_bands`: `middle = rolling(bb_period).mean()`. -/
def bb_middle_at (cfg : Config) (x : ℕ → ℚ) (t : ℕ) : Option ℚ :=
  sma_at cfg.bb_period x t

/-- `calculate_bollinger_bands`: `std = rolling(bb_period).std()`.  The
rolling sample standard deviation is an irrational square root, so its
(nonnegative) value is supplied as the series `stdFn`; the warm-up masking
(`NaN` until `bb_period` points exist, exactly as for `middle`) is pandas'. -/
def bb_std_at (cfg : Config) (stdFn : ℕ → ℚ) (t : ℕ) : Option ℚ :=
  if t + 1 < cfg.bb_period then none else some (stdFn t)

/-- `width`: initialised to `0.0` everywhere, overwritten with
`(upper - lower) / middle * 100` exactly where `middle > 0` (a NaN middle
compares false, so warm-up indices keep the `0.0` default). -/
def bb_width_at (cfg : Config) (x : ℕ → ℚ) (stdFn : ℕ → ℚ) (t : ℕ) : ℚ :=
  match bb_middle_at cfg x t, bb_std_at cfg stdFn t with
  | some m, some s =>
      if 0 < m then ((m + s * cfg.bb_std) - (m - s * cfg.bb_std)) / m * 100 else 0
  | _, _ => 0

/-- `pct_b`: initialised to `0.5` everywhere, overwritten with
`(price - lower) / band_range` exactly where `band_range = upper - lower`
is positive (a NaN range compares false, keeping the default). -/
def bb_pct_b_at (cfg : Config) (x : ℕ → ℚ) (stdFn : ℕ → ℚ) (t : ℕ) : ℚ :=
  match bb_middle_at cfg x t, bb_std_at cfg stdFn t with
  | some m, some s =>
      if 0 < (m + s * cfg.bb_std) - (m - s * cfg.bb_std) then
        (x t - (m - s * cfg.bb_std)) / ((m + s * cfg.bb_std) - (m - s * cfg.bb_std))
      else (1 : ℚ) / 2
  | _, _ => (1 : ℚ) / 2

/-- `'golden_cross'`, `'death_cross'` or `'neutral'`. -/
inductive Crossover where
  | golden_cross : Crossover
  | death_cross : Crossover
  | neutral : Crossover
deriving DecidableEq

/-- `detect_crossover`: compares the latest fast-EMA and slow-SMA values
(`iloc[-1]`), returning `neutral` when either series is shorter than 2
points, either latest value is NaN, or the values are equal. -/
def detect_crossover (ema_fast : List (Option ℚ)) (sma_slow : List (Option ℚ)) :
    Crossover :=
  if ema_fast.length < 2 ∨ sma_slow.length < 2 then .neutral
  else
    match ilocNeg ema_fast 1, ilocNeg sma_slow 1 with
    | some (some e), some (some s) =>
        if e > s then .golden_cross
        else if e < s then .death_cross
        else .neutral
    | _, _ => .neutral

/-- The backward walk shared by `count_days_above` and `count_days_below`:
starting at offset `i = 1` from the end with `fuel` remaining iterations,
count while the moving average is defined (`pd.notna`) and `cmp price ma`
holds; stop at the first failure. -/
def countDaysFrom (cmp : ℚ → ℚ → Bool) (prices : List ℚ) (ma : List (Option ℚ)) :
    ℕ → ℕ → ℕ
  | _, 0 => 0
  | i, fuel + 1 =>
      if i ≤ prices.length ∧ i ≤ ma.length then
        match ilocNeg prices i, ilocNeg ma i with
        | some price, some (some mv) =>
            if cmp price mv then countDaysFrom cmp prices ma (i + 1) fuel + 1 else 0
        | _, _ => 0
      else 0

/-- `count_days_above`: consecutive days (walking back from the most recent,
at most `max_days`) with `price > ma` and `ma` defined; `0` when either
series has fewer than 2 points. -/
def count_days_above (prices : List ℚ) (ma : List (Option ℚ))
    (max_days : ℕ := 10) : ℕ :=
  if prices.length < 2 ∨ ma.length < 2 then 0
  else countDaysFrom (fun p m => decide (p > m)) prices ma 1
    (min (max_days + 1) prices.length - 1)

/-- `count_days_below`: as `count_days_above` with `price < ma`. -/
def count_days_below (prices : List ℚ) (ma : List (Option ℚ))
    (max_days : ℕ := 10) : ℕ :=
  if prices.length < 2 ∨ ma.length < 2 then 0
  else countDaysFrom (fun p m => decide (p < m)) prices ma 1
    (min (max_days + 1) prices.length - 1)

/-- The `buy_conditions` dict of `analyze_etf` (5 named booleans). -/
structure BuyConds where
  price_above_ma_3days : Bool
  golden_cross : Bool
  rsi_optimal : Bool
  macd_positive_rising : Bool
  bb_width_expanding : Bool
deriving DecidableEq

/-- `buy_count = sum(buy_conditions.values())`. -/
def BuyConds.count (b : BuyConds) : ℕ :=
  b.price_above_ma_3days.toNat + b.golden_cross.toNat + b.rsi_optimal.toNat +
    b.macd_positive_rising.toNat + b.bb_width_expanding.toNat

/-- The `sell_conditions` dict of `analyze_etf` (3 named booleans). -/
structure SellConds where
  price_below_ma_3days : Bool
  death_cross : Bool
  rsi_extreme : Bool
deriving DecidableEq

/-- `sell_count = sum(sell_conditions.values())`. -/
def SellConds.count (s : SellConds) : ℕ :=
  s.price_below_ma_3days.toNat + s.death_cross.toNat + s.rsi_extreme.toNat

/-- `final_signal` values. -/
inductive Signal where
  | BUY : Signal
  | SELL : Signal
  | HOLD : Signal
  | PULLBACK : Signal
deriving DecidableEq

/-- `data_status` values. -/
inductive DataStatus where
  | ok : DataStatus
  | insufficient : DataStatus
deriving DecidableEq

/-- The `<indicator>_current` / `_prev` locals of `analyze_etf` (lines
256–276 of the source): each is the `iloc[-1]` (resp. `iloc[-2]`) of the
corresponding series, `None` when that value is NaN or out of range.
`rsi_current` keeps the full floating-point value (`None` exactly on NaN,
matching `pd.notna`). -/
structure Indicators where
  ema13_current : Option ℚ
  sma50_current : Option ℚ
  rsi_current : Option F
  macd_current : Option ℚ
  macd_signal_current : Option ℚ
  macd_hist_current : Option ℚ
  macd_hist_prev : Option ℚ
  bb_width_current : Option ℚ
  bb_width_prev : Option ℚ
  bb_pct_b_current : Option ℚ
  crossover : Crossover
  days_above_ema : ℕ
  days_above_sma : ℕ
  days_below_ema : ℕ
  days_below_sma : ℕ
deriving DecidableEq

/-- The fast-EMA series as passed to `detect_crossover` and the day
counters (never NaN, hence all `some`). -/
def emaSeries (cfg : Config) (x : ℕ → ℚ) (n : ℕ) : List (Option ℚ) :=
  (List.range n).map (fun i => some (ema_at cfg.ema_fast_period x i))

/-- The slow-SMA series (NaN during warm-up). -/
def smaSeries (cfg : Config) (x : ℕ → ℚ) (n : ℕ) : List (Option ℚ) :=
  (List.range n).map (fun i => sma_at cfg.sma_slow_period x i)

/-- Lines 250–276 of `analyze_etf`: compute every indicator series and take
the latest (and where needed previous) values.  `ema13`, the MACD series and
the Bollinger `width`/`pct_b` series are NaN-free on a NaN-free input, so
their `pd.notna` guards always succeed; `sma50`'s and the RSI's warm-up NaNs
are the `none`s of `sma_at` / `rsi_at`. -/
def indicatorsOf (cfg : Config) (close : List ℚ) (stdFn : ℕ → ℚ) : Indicators :=
  let n := close.length
  let x := fun i => close.getD i 0
  let t := n - 1
  { ema13_current := some (ema_at cfg.ema_fast_period x t)
    sma50_current := sma_at cfg.sma_slow_period x t
    rsi_current := match rsi_at cfg x t with
      | .nan => none
      | v => some v
    macd_current := some (macd_line_at cfg x t)
    macd_signal_current := some (macd_signal_line_at cfg x t)
    macd_hist_current := some (macd_histogram_at cfg x t)
    macd_hist_prev := if 2 ≤ n then some (macd_histogram_at cfg x (n - 2)) else none
    bb_width_current := some (bb_width_at cfg x stdFn t)
    bb_width_prev := if 2 ≤ n then some (bb_width_at cfg x stdFn (n - 2)) else none
    bb_pct_b_current := some (bb_pct_b_at cfg x stdFn t)
    crossover := detect_crossover (emaSeries cfg x n) (smaSeries cfg x n)
    days_above_ema := count_days_above close (emaSeries cfg x n)
    days_above_sma := count_days_above close (smaSeries cfg x n)
    days_below_ema := count_days_below close (emaSeries cfg x n)
    days_below_sma := count_days_below close (smaSeries cfg x n) }

/-- Lines 278–309: the five BUY conditions. -/
def buyCondsOf (cfg : Config) (ind : Indicators) : BuyConds :=
  { price_above_ma_3days :=
      decide (cfg.days_above_ma ≤ ind.days_above_ema) &&
        decide (cfg.days_above_ma ≤ ind.days_above_sma)
    golden_cross := decide (ind.crossover = .golden_cross)
    rsi_optimal := match ind.rsi_current with
      | some v => F.leb (.fin cfg.rsi_buy_low) v && F.leb v (.fin cfg.rsi_buy_high)
      | none => false
    macd_positive_rising := match ind.macd_hist_current, ind.macd_hist_prev with
      | some h, some hp => decide (0 < h) && decide (hp < h)
      | _, _ => false
    bb_width_expanding := match ind.bb_width_current, ind.bb_width_prev with
      | some w, some wp => decide (wp < w)
      | _, _ => false }

/-- Lines 311–330: the three SELL conditions (`days_above_ma` is reused as
the threshold for the below-count, as in the source). -/
def sellCondsOf (cfg : Config) (ind : Indicators) : SellConds :=
  { price_below_ma_3days :=
      decide (cfg.days_above_ma ≤ ind.days_below_ema) &&
        decide (cfg.days_above_ma ≤ ind.days_below_sma)
    death_cross := decide (ind.crossover = .death_cross)
    rsi_extreme := match ind.rsi_current with
      | some v => F.ltb (.fin cfg.rsi_overbought) v || F.ltb v (.fin cfg.rsi_oversold)
      | none => false }

/-- Line 334: `distance_from_ema = ((current_price - ema13_current) /
ema13_current * 100) if ema13_current and ema13_current > 0 else 0.0` —
Python truthiness makes `None` and `0.0` fall to the `0.0` default. -/
def distance_from_ema_of (current_price : ℚ) (ema13_current : Option ℚ) : ℚ :=
  match ema13_current with
  | some e => if e ≠ 0 ∧ 0 < e then (current_price - e) / e * 100 else 0
  | none => 0

/-- The outcome of the final-signal block (lines 335–358). -/
structure SignalDecision where
  final_signal : Signal
  signal_strength : ℕ
  pullback_active : Bool
  limit_order_price : Option ℚ
deriving DecidableEq

/-- Lines 335–358 of `analyze_etf`: the fixed-precedence signal decision
with the pullback gate.  `limit_order_price` is `round(ema13_current * (1 +
pullback_limit_offset/100), 4) if ema13_current else None` — again Python
truthiness, falsy at `None` and `0.0`. -/
def finalSignalCalc (cfg : Config) (buy_count sell_count : ℕ)
    (distance_from_ema : ℚ) (ema13_current : Option ℚ) : SignalDecision :=
  if buy_count = 5 then
    if cfg.pullback_max_distance < distance_from_ema then
      { final_signal := .PULLBACK
        signal_strength := 5
        pullback_active := true
        limit_order_price := match ema13_current with
          | some e =>
              if e ≠ 0 then some (roundTo (e * (1 + cfg.pullback_limit_offset / 100)) 4)
              else none
          | none => none }
    else
      { final_signal := .BUY, signal_strength := 5
        pullback_active := false, limit_order_price := none }
  else if 2 ≤ sell_count then
    { final_signal := .SELL, signal_strength := sell_count
      pullback_active := false, limit_order_price := none }
  else if 3 ≤ buy_count then
    { final_signal := .HOLD, signal_strength := buy_count
      pullback_active := false, limit_order_price := none }
  else
    { final_signal := .HOLD, signal_strength := 0
      pullback_active := false, limit_order_price := none }

/-- The return value of `_suggest_level`. -/
structure LevelSuggestion where
  suggested_level : ℤ
  level_change : Bool
  reason : String
deriving DecidableEq

/-- Python `f-string` formatting `f'{rsi:.0f}'` of a float value
(round-half-even to an integer). -/
def fmtFloat0 : F → String
  | .fin q => toString (roundHalfEven q)
  | .inf => "inf"
  | .ninf => "-inf"
  | .nan => "nan"

/-- `rsi is not None and rsi > 50` (the test `_suggest_level` evaluates
twice, in the tier-2 condition and when building its reason string). -/
def rsiAbove50 (rsi : Option F) : Bool :=
  match rsi with
  | some v => F.ltb (.fin 50) v
  | none => false

/-- The `(suggested, reason)` pair computed by the if/elif/else chain of
`_suggest_level` (lines 411–427 of the source). -/
def suggest_level_pair (buy_count : ℕ) (crossover : Crossover)
    (rsi : Option F) (pullback_active : Bool) : ℤ × String :=
  if buy_count = 5 then
    (1,
      if pullback_active then
        "PULLBACK: 5/5 condizioni OK ma prezzo troppo distante da EMA13 (>5%). Attendere ritracciamento."
      else
        "BUY ALERT: Tutte le 5 condizioni soddisfatte, prezzo vicino a EMA13")
  else if crossover = .golden_cross ∨ rsiAbove50 rsi = true then
    (2,
      "Watchlist: " ++
        String.intercalate ", "
          ((if crossover = .golden_cross then ["EMA13 > SMA50"] else []) ++
            (match rsi with
              | some v =>
                  if F.ltb (.fin 50) v then ["RSI " ++ fmtFloat0 v ++ " > 50"] else []
              | none => [])) ++
        " (" ++ toString buy_count ++ "/5 condizioni BUY)")
  else
    (3, "Monitoraggio passivo")

/-- `_suggest_level` (lines 400–433 of the source): tier 1 iff all five buy
conditions hold, else tier 2 iff golden cross or RSI above 50, else tier 3;
`level_change = suggested != current_level`.  The two condition-dict
parameters are accepted and unused, exactly as in the source. -/
def suggest_level (_cfg : Config) (_buy_conditions : BuyConds)
    (_sell_conditions : SellConds) (buy_count : ℕ) (crossover : Crossover)
    (rsi : Option F) (current_level : ℤ) (pullback_active : Bool) :
    LevelSuggestion :=
  { suggested_level := (suggest_level_pair buy_count crossover rsi pullback_active).1
    level_change :=
      decide ((suggest_level_pair buy_count crossover rsi pullback_active).1 ≠
        current_level)
    reason := (suggest_level_pair buy_count crossover rsi pullback_active).2 }

/-- `round(v, nd) if v else None` — the truthiness-guarded rounding applied
to every indicator in the result record: `None` stays `None`, an exact zero
becomes `None`, anything else is rounded. -/
def fmtOpt (nd : ℕ) (v : Option ℚ) : Option ℚ :=
  match v with
  | some q => if q = 0 then none else some (roundTo q nd)
  | none => none

/-- `round(v, nd) if v else None` for the floating-point-valued RSI
(`nan`/`inf` are truthy in Python, only an exact zero is falsy). -/
def fmtOptF (nd : ℕ) (v : Option F) : Option F :=
  match v with
  | some w => if w.truthy then some (w.roundF nd) else none
  | none => none

/-- One percentage change `round((x[-1] - x[-k]) / x[-k] * 100, 2)`,
evaluated with NumPy scalar semantics (division by a zero price yields an
infinity, not an exception). -/
def pct_change_at (x : ℕ → ℚ) (n k : ℕ) : F :=
  F.roundF (F.mul100 (F.div (.fin (x (n - 1) - x (n - k))) (.fin (x (n - k))))) 2

/-- The result record of `analyze_etf`.  Keys that the insufficient-data
record of the source does not contain at all (`buy_count`, `sell_count`,
`distance_from_ema`, `pullback_active`, `limit_order_price`,
`analysis_date`) are `Option`-typed, `none` on that branch; the empty
`buy_conditions`/`sell_conditions` dicts `{}` are likewise `none`. -/
structure AnalysisResult where
  current_price : Option ℚ
  ema13 : Option ℚ
  sma50 : Option ℚ
  rsi : Option F
  macd : Option ℚ
  macd_signal : Option ℚ
  macd_histogram : Option ℚ
  bb_width : Option ℚ
  bb_pct_b : Option ℚ
  crossover : Crossover
  days_above_ema : ℕ
  days_above_sma : ℕ
  days_below_ema : ℕ
  days_below_sma : ℕ
  buy_conditions : Option BuyConds
  buy_count : Option ℕ
  sell_conditions : Option SellConds
  sell_count : Option ℕ
  final_signal : Signal
  signal_strength : ℕ
  suggested_level : ℤ
  level_change : Bool
  level_reason : String
  pct_change_1d : Option F
  pct_change_1w : Option F
  pct_change_1m : Option F
  distance_from_ema : Option ℚ
  pullback_active : Option Bool
  limit_order_price : Option ℚ
  data_status : DataStatus
  analysis_date : Option String
deriving DecidableEq

/-- Lines 211–239: the fixed record returned when fewer than
`sma_slow_period + 5` points are supplied. -/
def insufficientResult (cfg : Config) (close : List ℚ) (level : ℤ) :
    AnalysisResult :=
  { current_price := close.getLast?
    ema13 := none, sma50 := none, rsi := none
    macd := none, macd_signal := none, macd_histogram := none
    bb_width := none, bb_pct_b := none
    crossover := .neutral
    days_above_ema := 0, days_above_sma := 0
    days_below_ema := 0, days_below_sma := 0
    buy_conditions := none, buy_count := none
    sell_conditions := none, sell_count := none
    final_signal := .HOLD, signal_strength := 0
    suggested_level := level, level_change := false
    level_reason := "Dati insufficienti: " ++ toString close.length ++ "/" ++
      toString (cfg.sma_slow_period + 5) ++ " giorni"
    pct_change_1d := none, pct_change_1w := none, pct_change_1m := none
    distance_from_ema := none, pullback_active := none, limit_order_price := none
    data_status := .insufficient, analysis_date := none }

/-- Lines 241–398: the full analysis path (series of at least
`sma_slow_period + 5` points).  `now` is the wall-clock string that
`datetime.now().strftime('%Y-%m-%d %H:%M')` produces at call time. -/
def analyzeOk (cfg : Config) (close : List ℚ) (stdFn : ℕ → ℚ) (level : ℤ)
    (now : String) : AnalysisResult :=
  let n := close.length
  let x := fun i => close.getD i 0
  let current_price := x (n - 1)
  let ind := indicatorsOf cfg close stdFn
  let bcs := buyCondsOf cfg ind
  let scs := sellCondsOf cfg ind
  let dist := distance_from_ema_of current_price ind.ema13_current
  let dec := finalSignalCalc cfg bcs.count scs.count dist ind.ema13_current
  let ls := suggest_level cfg bcs scs bcs.count ind.crossover ind.rsi_current
    level dec.pullback_active
  { current_price := some (roundTo current_price 4)
    ema13 := fmtOpt 4 ind.ema13_current
    sma50 := fmtOpt 4 ind.sma50_current
    rsi := fmtOptF 2 ind.rsi_current
    macd := fmtOpt 4 ind.macd_current
    macd_signal := fmtOpt 4 ind.macd_signal_current
    macd_histogram := fmtOpt 4 ind.macd_hist_current
    bb_width := fmtOpt 2 ind.bb_width_current
    bb_pct_b := fmtOpt 2 ind.bb_pct_b_current
    crossover := ind.crossover
    days_above_ema := ind.days_above_ema
    days_above_sma := ind.days_above_sma
    days_below_ema := ind.days_below_ema
    days_below_sma := ind.days_below_sma
    buy_conditions := some bcs
    buy_count := some bcs.count
    sell_conditions := some scs
    sell_count := some scs.count
    final_signal := dec.final_signal
    signal_strength := dec.signal_strength
    suggested_level := ls.suggested_level
    level_change := ls.level_change
    level_reason := ls.reason
    pct_change_1d := if 2 ≤ n then some (pct_change_at x n 2) else none
    pct_change_1w := if 6 ≤ n then some (pct_change_at x n 6) else none
    pct_change_1m := if 22 ≤ n then some (pct_change_at x n 22) else none
    distance_from_ema := some (roundTo dist 2)
    pullback_active := some dec.pullback_active
    limit_order_price := dec.limit_order_price
    data_status := .ok
    analysis_date := some now }

/-- `analyze_etf(close_df, level)`: the minimum-data gate followed by the
full analysis.  `close` is the `Close` column, `stdFn` the rolling-std
series (see `bb_std_at`), `now` the wall-clock timestamp read inside the
function. -/
def analyze_etf (cfg : Config) (close : List ℚ) (stdFn : ℕ → ℚ) (level : ℤ)
    (now : String) : AnalysisResult :=
  if close.length < cfg.sma_slow_period + 5 then insufficientResult cfg close level
  else analyzeOk cfg close stdFn level now

/-! ### Concrete inputs used by the witnesses and counterexamples -/

/-- 55 sessions at a constant price of 100. -/
def constSeries : List ℚ := List.replicate 55 100

/-- 55 sessions of strictly increasing prices (every delta is a gain, so the
smoothed average loss is exactly zero past the RSI warm-up). -/
def incSeries : List ℚ := (List.range 55).map (fun i => (100 + i : ℚ))

/-- A 55-session series satisfying all five BUY conditions under the default
configuration: 35 sessions oscillating 102/98 (feeding losses into the RSI),
then a climb of ¼ per session whose last two steps accelerate (so the MACD
histogram is positive and rising), ending 1.96% above the fast EMA. -/
def buySeries : List ℚ := (List.range 55).map fun i =>
  if i < 35 then (if i % 2 = 0 then (102 : ℚ) else 98)
  else (100 : ℚ) + ((i - 34 : ℕ) : ℚ) / 4 +
    (if i = 53 then 1/4 else if i = 54 then 3/4 else 0)

/-- A 10-session series (below the default 55-point minimum-data gate). -/
def shortSeries : List ℚ := List.replicate 10 100

/-- A zero rolling-std series. -/
def stdZero : ℕ → ℚ := fun _ => 0

/-- A strictly increasing rolling-std series (keeps the Bollinger width
expanding, the fifth BUY condition). -/
def stdRising : ℕ → ℚ := fun t => (t : ℚ)

/-! ### Helper lemmas -/

theorem BuyConds.count_le_five (b : BuyConds) : b.count ≤ 5 := by
  rcases b with ⟨b1, b2, b3, b4, b5⟩
  cases b1 <;> cases b2 <;> cases b3 <;> cases b4 <;> cases b5 <;> decide

theorem SellConds.count_le_three (s : SellConds) : s.count ≤ 3 := by
  rcases s with ⟨s1, s2, s3⟩
  cases s1 <;> cases s2 <;> cases s3 <;> decide

theorem BuyConds.eq_five (b : BuyConds) (h : b.count = 5) :
    b.price_above_ma_3days = true ∧ b.golden_cross = true ∧
      b.rsi_optimal = true ∧ b.macd_positive_rising = true ∧
      b.bb_width_expanding = true := by
  rcases b with ⟨b1, b2, b3, b4, b5⟩
  cases b1 <;> cases b2 <;> cases b3 <;> cases b4 <;> cases b5 <;>
    simp_all [BuyConds.count]

/-- A positive `count_days_above` means the most recent price and moving
average both exist and the price is strictly above the average. -/
theorem count_days_above_pos {prices : List ℚ} {ma : List (Option ℚ)}
    {md : ℕ} (h : 1 ≤ count_days_above prices ma md) :
    ∃ p m, ilocNeg prices 1 = some p ∧ ilocNeg ma 1 = some (some m) ∧ m < p := by
  unfold count_days_above at h
  by_cases hl : prices.length < 2 ∨ ma.length < 2
  · rw [if_pos hl] at h; omega
  · rw [if_neg hl] at h
    push_neg at hl
    rcases hfuel : min (md + 1) prices.length - 1 with _ | fuel
    · rw [hfuel] at h; simp [countDaysFrom] at h
    · rw [hfuel] at h
      unfold countDaysFrom at h
      rw [if_pos (by omega)] at h
      rcases hp : ilocNeg prices 1 with _ | p
      · simp only [hp] at h; omega
      · rcases hm : ilocNeg ma 1 with _ | mv
        · simp only [hp, hm] at h; omega
        · rcases mv with _ | m
          · simp only [hp, hm] at h; omega
          · simp only [hp, hm] at h
            by_cases hcmp : m < p
            · exact ⟨p, m, rfl, rfl, hcmp⟩
            · rw [if_neg (by simpa using hcmp)] at h; omega

/-- If the most recent price is strictly above the moving average (so the
above-count is positive), the below-count is zero: the backward walk of
`count_days_below` fails at its very first step. -/
theorem count_days_below_of_above {prices : List ℚ} {ma : List (Option ℚ)}
    {md : ℕ} (h : 1 ≤ count_days_above prices ma md) :
    count_days_below prices ma md = 0 := by
  obtain ⟨p, m, hp, hm, hmp⟩ := count_days_above_pos h
  unfold count_days_below
  by_cases hl : prices.length < 2 ∨ ma.length < 2
  · rw [if_pos hl]
  · rw [if_neg hl]
    push_neg at hl
    rcases hfuel : min (md + 1) prices.length - 1 with _ | fuel
    · rfl
    · unfold countDaysFrom
      rw [if_pos (by omega)]
      simp only [hp, hm]
      rw [if_neg (by simp only [decide_eq_true_eq]; exact fun hc => absurd hmp (lt_asymm hc))]

/-- `iloc[-1]` of the price list is its last element, i.e. `x (n-1)` in the
functional view. -/
theorem ilocNeg_one_getD (xs : List ℚ) (h : 1 ≤ xs.length) :
    ilocNeg xs 1 = some (xs.getD (xs.length - 1) 0) := by
  unfold ilocNeg
  rw [List.get?_eq_getElem?, List.getD_eq_getElem?_getD,
    List.getElem?_eq_getElem (by omega)]
  rfl

/-- `iloc[-1]` of the fast-EMA series is the EMA at the last index. -/
theorem ilocNeg_emaSeries (cfg : Config) (x : ℕ → ℚ) (n : ℕ) (h : 1 ≤ n) :
    ilocNeg (emaSeries cfg x n) 1 =
      some (some (ema_at cfg.ema_fast_period x (n - 1))) := by
  unfold ilocNeg emaSeries
  have hlen : ((List.range n).map fun i =>
      some (ema_at cfg.ema_fast_period x i)).length = n := by simp
  rw [List.get?_eq_getElem?, hlen, List.getElem?_map,
    List.getElem?_range (by omega)]
  rfl

theorem analyze_etf_eq_ok (cfg : Config) (close : List ℚ) (stdFn : ℕ → ℚ)
    (level : ℤ) (now : String) (h : cfg.sma_slow_period + 5 ≤ close.length) :
    analyze_etf cfg close stdFn level now = analyzeOk cfg close stdFn level now := by
  unfold analyze_etf
  rw [if_neg (by omega)]

theorem analyze_etf_eq_insufficient (cfg : Config) (close : List ℚ)
    (stdFn : ℕ → ℚ) (level : ℤ) (now : String)
    (h : close.length < cfg.sma_slow_period + 5) :
    analyze_etf cfg close stdFn level now = insufficientResult cfg close level := by
  unfold analyze_etf
  rw [if_pos h]

theorem analyzeOk_buy_count (cfg : Config) (close : List ℚ) (stdFn : ℕ → ℚ)
    (level : ℤ) (now : String) :
    (analyzeOk cfg close stdFn level now).buy_count =
      some (buyCondsOf cfg (indicatorsOf cfg close stdFn)).count := rfl

theorem analyzeOk_sell_count (cfg : Config) (close : List ℚ) (stdFn : ℕ → ℚ)
    (level : ℤ) (now : String) :
    (analyzeOk cfg close stdFn level now).sell_count =
      some (sellCondsOf cfg (indicatorsOf cfg close stdFn)).count := rfl

/-- The final-signal block of `analyzeOk` is `finalSignalCalc` applied to
the computed counts, distance and fast EMA. -/
theorem analyzeOk_decision (cfg : Config) (close : List ℚ) (stdFn : ℕ → ℚ)
    (level : ℤ) (now : String) :
    (analyzeOk cfg close stdFn level now).final_signal =
        (finalSignalCalc cfg (buyCondsOf cfg (indicatorsOf cfg close stdFn)).count
          (sellCondsOf cfg (indicatorsOf cfg close stdFn)).count
          (distance_from_ema_of (close.getD (close.length - 1) 0)
            (indicatorsOf cfg close stdFn).ema13_current)
          (indicatorsOf cfg close stdFn).ema13_current).final_signal ∧
      (analyzeOk cfg close stdFn level now).signal_strength =
        (finalSignalCalc cfg (buyCondsOf cfg (indicatorsOf cfg close stdFn)).count
          (sellCondsOf cfg (indicatorsOf cfg close stdFn)).count
          (distance_from_ema_of (close.getD (close.length - 1) 0)
            (indicatorsOf cfg close stdFn).ema13_current)
          (indicatorsOf cfg close stdFn).ema13_current).signal_strength ∧
      (analyzeOk cfg close stdFn level now).pullback_active =
        some (finalSignalCalc cfg (buyCondsOf cfg (indicatorsOf cfg close stdFn)).count
          (sellCondsOf cfg (indicatorsOf cfg close stdFn)).count
          (distance_from_ema_of (close.getD (close.length - 1) 0)
            (indicatorsOf cfg close stdFn).ema13_current)
          (indicatorsOf cfg close stdFn).ema13_current).pullback_active ∧
      (analyzeOk cfg close stdFn level now).limit_order_price =
        (finalSignalCalc cfg (buyCondsOf cfg (indicatorsOf cfg close stdFn)).count
          (sellCondsOf cfg (indicatorsOf cfg close stdFn)).count
          (distance_from_ema_of (close.getD (close.length - 1) 0)
            (indicatorsOf cfg close stdFn).ema13_current)
          (indicatorsOf cfg close stdFn).ema13_current).limit_order_price :=
  ⟨rfl, rfl, rfl, rfl⟩

/-- The tier block of `analyzeOk` is `suggest_level` applied to the computed
conditions. -/
theorem analyzeOk_level (cfg : Config) (close : List ℚ) (stdFn : ℕ → ℚ)
    (level : ℤ) (now : String) :
    (analyzeOk cfg close stdFn level now).suggested_level =
        (suggest_level cfg (buyCondsOf cfg (indicatorsOf cfg close stdFn))
          (sellCondsOf cfg (indicatorsOf cfg close stdFn))
          (buyCondsOf cfg (indicatorsOf cfg close stdFn)).count
          (indicatorsOf cfg close stdFn).crossover
          (indicatorsOf cfg close stdFn).rsi_current level
          (finalSignalCalc cfg (buyCondsOf cfg (indicatorsOf cfg close stdFn)).count
            (sellCondsOf cfg (indicatorsOf cfg close stdFn)).count
            (distance_from_ema_of (close.getD (close.length - 1) 0)
              (indicatorsOf cfg close stdFn).ema13_current)
            (indicatorsOf cfg close stdFn).ema13_current).pullback_active).suggested_level ∧
      (analyzeOk cfg close stdFn level now).level_change =
        (suggest_level cfg (buyCondsOf cfg (indicatorsOf cfg close stdFn))
          (sellCondsOf cfg (indicatorsOf cfg close stdFn))
          (buyCondsOf cfg (indicatorsOf cfg close stdFn)).count
          (indicatorsOf cfg close stdFn).crossover
          (indicatorsOf cfg close stdFn).rsi_current level
          (finalSignalCalc cfg (buyCondsOf cfg (indicatorsOf cfg close stdFn)).count
            (sellCondsOf cfg (indicatorsOf cfg close stdFn)).count
            (distance_from_ema_of (close.getD (close.length - 1) 0)
              (indicatorsOf cfg close stdFn).ema13_current)
            (indicatorsOf cfg close stdFn).ema13_current).pullback_active).level_change :=
  ⟨rfl, rfl⟩

/-- The indicator fields of the full-path record are the truthiness-guarded
roundings of the current values. -/
theorem analyzeOk_fmt (cfg : Config) (close : List ℚ) (stdFn : ℕ → ℚ)
    (level : ℤ) (now : String) :
    (analyzeOk cfg close stdFn level now).ema13 =
        fmtOpt 4 (indicatorsOf cfg close stdFn).ema13_current ∧
      (analyzeOk cfg close stdFn level now).sma50 =
        fmtOpt 4 (indicatorsOf cfg close stdFn).sma50_current ∧
      (analyzeOk cfg close stdFn level now).rsi =
        fmtOptF 2 (indicatorsOf cfg close stdFn).rsi_current ∧
      (analyzeOk cfg close stdFn level now).macd =
        fmtOpt 4 (indicatorsOf cfg close stdFn).macd_current ∧
      (analyzeOk cfg close stdFn level now).macd_signal =
        fmtOpt 4 (indicatorsOf cfg close stdFn).macd_signal_current ∧
      (analyzeOk cfg close stdFn level now).macd_histogram =
        fmtOpt 4 (indicatorsOf cfg close stdFn).macd_hist_current ∧
      (analyzeOk cfg close stdFn level now).bb_width =
        fmtOpt 2 (indicatorsOf cfg close stdFn).bb_width_current ∧
      (analyzeOk cfg close stdFn level now).bb_pct_b =
        fmtOpt 2 (indicatorsOf cfg close stdFn).bb_pct_b_current :=
  ⟨rfl, rfl, rfl, rfl, rfl, rfl, rfl, rfl⟩

/-! ### Claim theorems -/

/-- **C1** — For every input series that passes the minimum-data gate and
every current level, `analyze_etf` assigns `final_signal` and
`signal_strength` by the fixed precedence: all 5 buy conditions → BUY or
PULLBACK with strength 5; else ≥ 2 of 3 sell conditions → SELL with the
sell count as strength; else buy count 3 or 4 → HOLD with that count; else
HOLD with strength 0.  In particular `signal_strength` never exceeds 5. -/
theorem claim_C1 (cfg : Config) (close : List ℚ) (stdFn : ℕ → ℚ) (level : ℤ)
    (now : String) (h : cfg.sma_slow_period + 5 ≤ close.length) :
    (∀ bc sc : ℕ,
      (analyze_etf cfg close stdFn level now).buy_count = some bc →
      (analyze_etf cfg close stdFn level now).sell_count = some sc →
      (bc = 5 →
        ((analyze_etf cfg close stdFn level now).final_signal = .BUY ∨
          (analyze_etf cfg close stdFn level now).final_signal = .PULLBACK) ∧
        (analyze_etf cfg close stdFn level now).signal_strength = 5) ∧
      (bc ≠ 5 → 2 ≤ sc →
        (analyze_etf cfg close stdFn level now).final_signal = .SELL ∧
        (analyze_etf cfg close stdFn level now).signal_strength = sc) ∧
      (bc ≠ 5 → sc < 2 → 3 ≤ bc →
        (analyze_etf cfg close stdFn level now).final_signal = .HOLD ∧
        (analyze_etf cfg close stdFn level now).signal_strength = bc) ∧
      (bc ≠ 5 → sc < 2 → bc < 3 →
        (analyze_etf cfg close stdFn level now).final_signal = .HOLD ∧
        (analyze_etf cfg close stdFn level now).signal_strength = 0)) ∧
    (analyze_etf cfg close stdFn level now).signal_strength ≤ 5 := by
  rw [analyze_etf_eq_ok cfg close stdFn level now h]
  obtain ⟨hfs, hss, -, -⟩ := analyzeOk_decision cfg close stdFn level now
  rw [analyzeOk_buy_count, analyzeOk_sell_count, hfs, hss]
  have hB5 := (buyCondsOf cfg (indicatorsOf cfg close stdFn)).count_le_five
  have hS3 := (sellCondsOf cfg (indicatorsOf cfg close stdFn)).count_le_three
  constructor
  · intro bc sc hbc hsc
    obtain rfl : (buyCondsOf cfg (indicatorsOf cfg close stdFn)).count = bc :=
      Option.some.inj hbc
    obtain rfl : (sellCondsOf cfg (indicatorsOf cfg close stdFn)).count = sc :=
      Option.some.inj hsc
    unfold finalSignalCalc
    split_ifs with h1 h2 h3 h4 <;>
      refine ⟨fun hb5 => ?_, fun hne hs2 => ?_, fun hne hs2 hb3 => ?_,
        fun hne hs2 hb3 => ?_⟩ <;> simp_all <;> omega
  · unfold finalSignalCalc
    split_ifs <;> simp <;> omega

/-- Witness for C1 at the 55-session constant series (0/5 buy, 0/3 sell
conditions → HOLD with strength 0). -/
theorem claim_C1_witness :
    defaultConfig.sma_slow_period + 5 ≤ constSeries.length ∧
      (analyze_etf defaultConfig constSeries stdZero 3 "2024-01-01 00:00").final_signal =
        .HOLD ∧
      (analyze_etf defaultConfig constSeries stdZero 3 "2024-01-01 00:00").signal_strength =
        0 ∧
      (analyze_etf defaultConfig constSeries stdZero 3 "2024-01-01 00:00").signal_strength ≤
        5 := by
  have h := claim_C1 defaultConfig constSeries stdZero 3 "2024-01-01 00:00" (by decide)
  have h0 := (h.1 0 0 (by decide) (by decide)).2.2.2 (by decide) (by decide) (by decide)
  exact ⟨by decide, h0.1, h0.2, h.2⟩

/-- **C3** — Below the minimum-data gate (`sma_slow_period + 5` points,
default 55) the result is the fixed insufficient record: `data_status =
insufficient`, HOLD with strength 0, tier unchanged, every indicator null,
and the reason stating the shortfall; at or above the gate the full path
runs (`data_status = ok`). -/
theorem claim_C3 (cfg : Config) (close : List ℚ) (stdFn : ℕ → ℚ) (level : ℤ)
    (now : String) :
    (close.length < cfg.sma_slow_period + 5 →
      (analyze_etf cfg close stdFn level now).data_status = .insufficient ∧
      (analyze_etf cfg close stdFn level now).final_signal = .HOLD ∧
      (analyze_etf cfg close stdFn level now).signal_strength = 0 ∧
      (analyze_etf cfg close stdFn level now).suggested_level = level ∧
      (analyze_etf cfg close stdFn level now).level_change = false ∧
      (analyze_etf cfg close stdFn level now).ema13 = none ∧
      (analyze_etf cfg close stdFn level now).sma50 = none ∧
      (analyze_etf cfg close stdFn level now).rsi = none ∧
      (analyze_etf cfg close stdFn level now).macd = none ∧
      (analyze_etf cfg close stdFn level now).macd_signal = none ∧
      (analyze_etf cfg close stdFn level now).macd_histogram = none ∧
      (analyze_etf cfg close stdFn level now).bb_width = none ∧
      (analyze_etf cfg close stdFn level now).bb_pct_b = none ∧
      (analyze_etf cfg close stdFn level now).level_reason =
        "Dati insufficienti: " ++ toString close.length ++ "/" ++
          toString (cfg.sma_slow_period + 5) ++ " giorni") ∧
    (cfg.sma_slow_period + 5 ≤ close.length →
      (analyze_etf cfg close stdFn level now).data_status = .ok) := by
  constructor
  · intro h
    rw [analyze_etf_eq_insufficient cfg close stdFn level now h]
    exact ⟨rfl, rfl, rfl, rfl, rfl, rfl, rfl, rfl, rfl, rfl, rfl, rfl, rfl, rfl⟩
  · intro h
    rw [analyze_etf_eq_ok cfg close stdFn level now h]
    rfl

/-- Witness for C3: a 10-session series short-circuits to the insufficient
record, a 55-session series reaches the full path. -/
theorem claim_C3_witness :
    (shortSeries.length < defaultConfig.sma_slow_period + 5 ∧
      (analyze_etf defaultConfig shortSeries stdZero 2 "2024-01-01 00:00").data_status =
        .insufficient ∧
      (analyze_etf defaultConfig shortSeries stdZero 2 "2024-01-01 00:00").level_reason =
        "Dati insufficienti: 10/55 giorni") ∧
    (defaultConfig.sma_slow_period + 5 ≤ constSeries.length ∧
      (analyze_etf defaultConfig constSeries stdZero 2 "2024-01-01 00:00").data_status =
        .ok) := by
  have h1 := (claim_C3 defaultConfig shortSeries stdZero 2 "2024-01-01 00:00").1 (by decide)
  have h2 := (claim_C3 defaultConfig constSeries stdZero 2 "2024-01-01 00:00").2 (by decide)
  refine ⟨⟨by decide, h1.1, ?_⟩, ⟨by decide, h2⟩⟩
  rw [h1.2.2.2.2.2.2.2.2.2.2.2.2.2]
  rfl

/-- The result record with the `analysis_date` key removed. -/
def eraseDate (r : AnalysisResult) : AnalysisResult :=
  { r with analysis_date := none }

/-- **C7 (amended)** — Apart from `analysis_date` (which records the wall
clock read by `datetime.now()` inside `analyze_etf`), the result record is
fully determined by the input series, rolling std, level and configuration:
two calls at different times agree on every other field. -/
theorem claim_C7 (cfg : Config) (close : List ℚ) (stdFn : ℕ → ℚ) (level : ℤ)
    (t1 t2 : String) :
    eraseDate (analyze_etf cfg close stdFn level t1) =
      eraseDate (analyze_etf cfg close stdFn level t2) := by
  unfold analyze_etf
  split <;> rfl

/-- Counterexample to C7 as stated: two calls with identical DataFrame,
level and configuration but different wall-clock instants return records
that differ (in the `analysis_date` field). -/
theorem claim_C7_counterexample :
    analyze_etf defaultConfig constSeries stdZero 3 "2024-01-01 00:00" ≠
      analyze_etf defaultConfig constSeries stdZero 3 "2024-01-01 00:01" := by
  intro h
  have hd := congrArg AnalysisResult.analysis_date h
  rw [show (analyze_etf defaultConfig constSeries stdZero 3 "2024-01-01 00:00").analysis_date =
        some "2024-01-01 00:00" from rfl,
      show (analyze_etf defaultConfig constSeries stdZero 3 "2024-01-01 00:01").analysis_date =
        some "2024-01-01 00:01" from rfl] at hd
  exact absurd (Option.some.inj hd) (by decide)

/-- **C5** — `detect_crossover` returns `golden_cross` iff the latest
fast-EMA value is strictly greater than the latest slow-SMA value with both
defined (and both series at least 2 points long), `death_cross` iff
strictly less, and `neutral` in every other case — including an undefined
latest value, exact equality, or a series shorter than 2 points. -/
theorem claim_C5 (e s : List (Option ℚ)) :
    (detect_crossover e s = .golden_cross ↔
      2 ≤ e.length ∧ 2 ≤ s.length ∧
        ∃ ec sc, ilocNeg e 1 = some (some ec) ∧ ilocNeg s 1 = some (some sc) ∧
          sc < ec) ∧
    (detect_crossover e s = .death_cross ↔
      2 ≤ e.length ∧ 2 ≤ s.length ∧
        ∃ ec sc, ilocNeg e 1 = some (some ec) ∧ ilocNeg s 1 = some (some sc) ∧
          ec < sc) ∧
    (detect_crossover e s = .neutral ↔
      ¬(2 ≤ e.length ∧ 2 ≤ s.length ∧
        ∃ ec sc, ilocNeg e 1 = some (some ec) ∧ ilocNeg s 1 = some (some sc) ∧
          sc < ec) ∧
      ¬(2 ≤ e.length ∧ 2 ≤ s.length ∧
        ∃ ec sc, ilocNeg e 1 = some (some ec) ∧ ilocNeg s 1 = some (some sc) ∧
          ec < sc)) := by
  by_cases hl : e.length < 2 ∨ s.length < 2
  · have hres : detect_crossover e s = .neutral := by
      unfold detect_crossover; rw [if_pos hl]
    rw [hres]
    refine ⟨⟨fun hgc => absurd hgc (by decide), ?_⟩,
      ⟨fun hdc => absurd hdc (by decide), ?_⟩,
      ⟨fun _ => ⟨?_, ?_⟩, fun _ => rfl⟩⟩ <;>
      · rintro ⟨h1, h2, -⟩; omega
  · push_neg at hl
    rcases he : ilocNeg e 1 with _ | ev
    · have hres : detect_crossover e s = .neutral := by
        unfold detect_crossover; rw [if_neg (by omega), he]
      rw [hres]
      refine ⟨⟨fun hgc => absurd hgc (by decide), ?_⟩,
        ⟨fun hdc => absurd hdc (by decide), ?_⟩,
        ⟨fun _ => ⟨?_, ?_⟩, fun _ => rfl⟩⟩ <;>
        · rintro ⟨-, -, ec, sc, heq, -, -⟩; exact Option.noConfusion heq
    · rcases ev with _ | ec
      · have hres : detect_crossover e s = .neutral := by
          unfold detect_crossover; rw [if_neg (by omega), he]
        rw [hres]
        refine ⟨⟨fun hgc => absurd hgc (by decide), ?_⟩,
          ⟨fun hdc => absurd hdc (by decide), ?_⟩,
          ⟨fun _ => ⟨?_, ?_⟩, fun _ => rfl⟩⟩ <;>
          · rintro ⟨-, -, ec', sc', heq, -, -⟩
            exact Option.noConfusion (Option.some.inj heq)
      · rcases hs2 : ilocNeg s 1 with _ | sv
        · have hres : detect_crossover e s = .neutral := by
            unfold detect_crossover; rw [if_neg (by omega), he, hs2]
          rw [hres]
          refine ⟨⟨fun hgc => absurd hgc (by decide), ?_⟩,
            ⟨fun hdc => absurd hdc (by decide), ?_⟩,
            ⟨fun _ => ⟨?_, ?_⟩, fun _ => rfl⟩⟩ <;>
            · rintro ⟨-, -, ec', sc', -, heq, -⟩; exact Option.noConfusion heq
        · rcases sv with _ | sc
          · have hres : detect_crossover e s = .neutral := by
              unfold detect_crossover; rw [if_neg (by omega), he, hs2]
            rw [hres]
            refine ⟨⟨fun hgc => absurd hgc (by decide), ?_⟩,
              ⟨fun hdc => absurd hdc (by decide), ?_⟩,
              ⟨fun _ => ⟨?_, ?_⟩, fun _ => rfl⟩⟩ <;>
              · rintro ⟨-, -, ec', sc', -, heq, -⟩
                exact Option.noConfusion (Option.some.inj heq)
          · have hres : detect_crossover e s =
                if ec > sc then .golden_cross
                else if ec < sc then .death_cross else .neutral := by
              unfold detect_crossover; rw [if_neg (by omega), he, hs2]
            rw [hres]
            by_cases hgt : ec > sc
            · rw [if_pos hgt]
              refine ⟨⟨fun _ => ⟨hl.1, hl.2, ec, sc, rfl, rfl, hgt⟩, fun _ => rfl⟩,
                ⟨fun hdc => absurd hdc (by decide), ?_⟩,
                ⟨fun hne => absurd hne (by decide), fun hrhs => ?_⟩⟩
              · rintro ⟨-, -, ec', sc', heq, hseq, hlt'⟩
                obtain rfl := Option.some.inj (Option.some.inj heq)
                obtain rfl := Option.some.inj (Option.some.inj hseq)
                exact absurd hlt' (lt_asymm hgt)
              · exact absurd ⟨hl.1, hl.2, ec, sc, rfl, rfl, hgt⟩ hrhs.1
            · rw [if_neg hgt]
              by_cases hlt : ec < sc
              · rw [if_pos hlt]
                refine ⟨⟨fun hgc => absurd hgc (by decide), ?_⟩,
                  ⟨fun _ => ⟨hl.1, hl.2, ec, sc, rfl, rfl, hlt⟩, fun _ => rfl⟩,
                  ⟨fun hne => absurd hne (by decide), fun hrhs => ?_⟩⟩
                · rintro ⟨-, -, ec', sc', heq, hseq, hgt'⟩
                  obtain rfl := Option.some.inj (Option.some.inj heq)
                  obtain rfl := Option.some.inj (Option.some.inj hseq)
                  exact absurd hgt' (asymm hlt)
                · exact absurd ⟨hl.1, hl.2, ec, sc, rfl, rfl, hlt⟩ hrhs.2
              · rw [if_neg hlt]
                refine ⟨⟨fun hgc => absurd hgc (by decide), ?_⟩,
                  ⟨fun hdc => absurd hdc (by decide), ?_⟩,
                  ⟨fun _ => ⟨?_, ?_⟩, fun _ => rfl⟩⟩
                · rintro ⟨-, -, ec', sc', heq, hseq, hlt'⟩
                  obtain rfl := Option.some.inj (Option.some.inj heq)
                  obtain rfl := Option.some.inj (Option.some.inj hseq)
                  exact absurd hlt' hgt
                · rintro ⟨-, -, ec', sc', heq, hseq, hgt'⟩
                  obtain rfl := Option.some.inj (Option.some.inj heq)
                  obtain rfl := Option.some.inj (Option.some.inj hseq)
                  exact absurd hgt' hlt
                · rintro ⟨-, -, ec', sc', heq, hseq, hlt'⟩
                  obtain rfl := Option.some.inj (Option.some.inj heq)
                  obtain rfl := Option.some.inj (Option.some.inj hseq)
                  exact hgt hlt'
                · rintro ⟨-, -, ec', sc', heq, hseq, hgt'⟩
                  obtain rfl := Option.some.inj (Option.some.inj heq)
                  obtain rfl := Option.some.inj (Option.some.inj hseq)
                  exact hlt hgt'

/-- Witness for C5 at concrete series: fast above slow gives
`golden_cross`, equality gives `neutral`. -/
theorem claim_C5_witness :
    detect_crossover [some 1, some 3] [some 1, some 2] = .golden_cross ∧
      detect_crossover [some 1, some 2] [some 1, some 2] = .neutral := by
  refine ⟨(claim_C5 [some 1, some 3] [some 1, some 2]).1.mpr
      ⟨by decide, by decide, 3, 2, by decide, by decide, by decide⟩,
    (claim_C5 [some 1, some 2] [some 1, some 2]).2.2.mpr ⟨?_, ?_⟩⟩
  · rintro ⟨-, -, ec, sc, heq, hseq, hlt⟩
    rw [show ilocNeg [some (1 : ℚ), some 2] 1 = some (some 2) from rfl] at heq hseq
    obtain rfl := Option.some.inj (Option.some.inj heq)
    obtain rfl := Option.some.inj (Option.some.inj hseq)
    exact absurd hlt (by decide)
  · rintro ⟨-, -, ec, sc, heq, hseq, hlt⟩
    rw [show ilocNeg [some (1 : ℚ), some 2] 1 = some (some 2) from rfl] at heq hseq
    obtain rfl := Option.some.inj (Option.some.inj heq)
    obtain rfl := Option.some.inj (Option.some.inj hseq)
    exact absurd hlt (by decide)

/-- **C10** — In an `ok` record the truthiness-guarded rounding
(`round(x, n) if x else None`) turns an indicator whose computed latest
value is exactly 0 into `null`, for all eight guarded fields. -/
theorem claim_C10 (cfg : Config) (close : List ℚ) (stdFn : ℕ → ℚ) (level : ℤ)
    (now : String) (h : cfg.sma_slow_period + 5 ≤ close.length) :
    ((indicatorsOf cfg close stdFn).ema13_current = some 0 →
      (analyze_etf cfg close stdFn level now).ema13 = none) ∧
    ((indicatorsOf cfg close stdFn).sma50_current = some 0 →
      (analyze_etf cfg close stdFn level now).sma50 = none) ∧
    ((indicatorsOf cfg close stdFn).rsi_current = some (F.fin 0) →
      (analyze_etf cfg close stdFn level now).rsi = none) ∧
    ((indicatorsOf cfg close stdFn).macd_current = some 0 →
      (analyze_etf cfg close stdFn level now).macd = none) ∧
    ((indicatorsOf cfg close stdFn).macd_signal_current = some 0 →
      (analyze_etf cfg close stdFn level now).macd_signal = none) ∧
    ((indicatorsOf cfg close stdFn).macd_hist_current = some 0 →
      (analyze_etf cfg close stdFn level now).macd_histogram = none) ∧
    ((indicatorsOf cfg close stdFn).bb_width_current = some 0 →
      (analyze_etf cfg close stdFn level now).bb_width = none) ∧
    ((indicatorsOf cfg close stdFn).bb_pct_b_current = some 0 →
      (analyze_etf cfg close stdFn level now).bb_pct_b = none) := by
  rw [analyze_etf_eq_ok cfg close stdFn level now h]
  obtain ⟨h1, h2, h3, h4, h5, h6, h7, h8⟩ := analyzeOk_fmt cfg close stdFn level now
  refine ⟨fun h0 => ?_, fun h0 => ?_, fun h0 => ?_, fun h0 => ?_, fun h0 => ?_,
    fun h0 => ?_, fun h0 => ?_, fun h0 => ?_⟩
  · rw [h1, h0]; rfl
  · rw [h2, h0]; rfl
  · rw [h3, h0]; rfl
  · rw [h4, h0]; rfl
  · rw [h5, h0]; rfl
  · rw [h6, h0]; rfl
  · rw [h7, h0]; rfl
  · rw [h8, h0]; rfl

/-- Witness for C10: on the constant series the MACD histogram and the
Bollinger width are defined and exactly 0, and both are emitted as null. -/
theorem claim_C10_witness :
    defaultConfig.sma_slow_period + 5 ≤ constSeries.length ∧
      (indicatorsOf defaultConfig constSeries stdZero).macd_hist_current = some 0 ∧
      (analyze_etf defaultConfig constSeries stdZero 3 "2024-01-01 00:00").macd_histogram =
        none ∧
      (indicatorsOf defaultConfig constSeries stdZero).bb_width_current = some 0 ∧
      (analyze_etf defaultConfig constSeries stdZero 3 "2024-01-01 00:00").bb_width =
        none := by
  have h := claim_C10 defaultConfig constSeries stdZero 3 "2024-01-01 00:00" (by decide)
  exact ⟨by decide, by decide, h.2.2.2.2.2.1 (by decide), by decide,
    h.2.2.2.2.2.2.1 (by decide)⟩

/-- The tier computed by `suggest_level` and the `level_change` flag,
expressed as a closed-form conditional. -/
theorem suggest_level_spec (cfg : Config) (bcs : BuyConds) (scs : SellConds)
    (bc : ℕ) (co : Crossover) (rsi : Option F) (lvl : ℤ) (pa : Bool) :
    ((suggest_level cfg bcs scs bc co rsi lvl pa).suggested_level =
      if bc = 5 then 1
      else if co = .golden_cross ∨ (∃ v, rsi = some v ∧ F.ltb (.fin 50) v = true)
      then 2 else 3) ∧
    ((suggest_level cfg bcs scs bc co rsi lvl pa).level_change =
      decide ((suggest_level cfg bcs scs bc co rsi lvl pa).suggested_level ≠ lvl)) := by
  constructor
  · show (suggest_level_pair bc co rsi pa).1 = _
    by_cases h1 : bc = 5
    · unfold suggest_level_pair
      rw [if_pos h1, if_pos h1]
    · by_cases h2 : co = .golden_cross ∨ (∃ v, rsi = some v ∧ F.ltb (.fin 50) v = true)
      · have hbool : co = .golden_cross ∨ rsiAbove50 rsi = true := by
          rcases h2 with hco | ⟨v, rfl, hv⟩
          · exact Or.inl hco
          · exact Or.inr hv
        unfold suggest_level_pair
        rw [if_neg h1, if_pos hbool, if_neg h1, if_pos h2]
      · have hbool : ¬(co = .golden_cross ∨ rsiAbove50 rsi = true) := by
          rintro (hco | hm)
          · exact h2 (Or.inl hco)
          · rcases rsi with _ | v
            · exact absurd hm (by decide)
            · exact h2 (Or.inr ⟨v, rfl, by simpa [rsiAbove50] using hm⟩)
        unfold suggest_level_pair
        rw [if_neg h1, if_neg hbool, if_neg h1, if_neg h2]
  · rfl

/-- **C4** — With sufficient data the tier suggestion satisfies:
`suggested_level = 1` iff all five buy conditions hold; otherwise 2 iff the
crossover is golden or RSI is defined and strictly above 50; otherwise 3;
and `level_change` holds exactly when the suggestion differs from the
caller-supplied current level. -/
theorem claim_C4 (cfg : Config) (close : List ℚ) (stdFn : ℕ → ℚ) (level : ℤ)
    (now : String) (h : cfg.sma_slow_period + 5 ≤ close.length) :
    ((analyze_etf cfg close stdFn level now).suggested_level = 1 ↔
      (buyCondsOf cfg (indicatorsOf cfg close stdFn)).count = 5) ∧
    ((buyCondsOf cfg (indicatorsOf cfg close stdFn)).count ≠ 5 →
      ((analyze_etf cfg close stdFn level now).suggested_level = 2 ↔
        ((indicatorsOf cfg close stdFn).crossover = .golden_cross ∨
          ∃ v, (indicatorsOf cfg close stdFn).rsi_current = some v ∧
            F.ltb (.fin 50) v = true))) ∧
    ((buyCondsOf cfg (indicatorsOf cfg close stdFn)).count ≠ 5 →
      ¬((indicatorsOf cfg close stdFn).crossover = .golden_cross ∨
          ∃ v, (indicatorsOf cfg close stdFn).rsi_current = some v ∧
            F.ltb (.fin 50) v = true) →
      (analyze_etf cfg close stdFn level now).suggested_level = 3) ∧
    ((analyze_etf cfg close stdFn level now).level_change = true ↔
      (analyze_etf cfg close stdFn level now).suggested_level ≠ level) := by
  rw [analyze_etf_eq_ok cfg close stdFn level now h]
  obtain ⟨hsl, hlc⟩ := analyzeOk_level cfg close stdFn level now
  obtain ⟨hs, hc⟩ := suggest_level_spec cfg
    (buyCondsOf cfg (indicatorsOf cfg close stdFn))
    (sellCondsOf cfg (indicatorsOf cfg close stdFn))
    (buyCondsOf cfg (indicatorsOf cfg close stdFn)).count
    (indicatorsOf cfg close stdFn).crossover
    (indicatorsOf cfg close stdFn).rsi_current level
    (finalSignalCalc cfg (buyCondsOf cfg (indicatorsOf cfg close stdFn)).count
      (sellCondsOf cfg (indicatorsOf cfg close stdFn)).count
      (distance_from_ema_of (close.getD (close.length - 1) 0)
        (indicatorsOf cfg close stdFn).ema13_current)
      (indicatorsOf cfg close stdFn).ema13_current).pullback_active
  rw [hsl, hlc, hc, hs]
  refine ⟨?_, fun hne => ?_, fun hne hno => ?_, ?_⟩
  · split_ifs with h1 <;> simp_all
  · split_ifs with h1 h2 <;> simp_all
  · split_ifs with h1 <;> simp_all
  · exact decide_eq_true_iff

/-- Witness for C4 at the constant series (0/5 buy conditions, neutral
crossover, NaN RSI → tier 3, changed from the supplied tier 2). -/
theorem claim_C4_witness :
    defaultConfig.sma_slow_period + 5 ≤ constSeries.length ∧
      (analyze_etf defaultConfig constSeries stdZero 2 "2024-01-01 00:00").suggested_level =
        3 ∧
      ((analyze_etf defaultConfig constSeries stdZero 2 "2024-01-01 00:00").level_change =
        true ↔
        (analyze_etf defaultConfig constSeries stdZero 2 "2024-01-01 00:00").suggested_level ≠
          2) := by
  have h := claim_C4 defaultConfig constSeries stdZero 2 "2024-01-01 00:00" (by decide)
  refine ⟨by decide, h.2.2.1 (by decide) ?_, h.2.2.2⟩
  rintro (hco | ⟨v, hv, -⟩)
  · exact absurd hco (by decide)
  · rw [show (indicatorsOf defaultConfig constSeries stdZero).rsi_current = none
      from by decide] at hv
    exact Option.noConfusion hv

/-- The pullback behaviour of the final-signal block: PULLBACK (equivalently
`pullback_active`) holds iff all five buy conditions hold and the distance
exceeds the threshold; the limit order price is set exactly then. -/
theorem finalSignalCalc_pullback (cfg : Config) (bc sc : ℕ) (dist : ℚ)
    (ema : Option ℚ) :
    ((finalSignalCalc cfg bc sc dist ema).final_signal = .PULLBACK ↔
      (bc = 5 ∧ cfg.pullback_max_distance < dist)) ∧
    ((finalSignalCalc cfg bc sc dist ema).pullback_active = true ↔
      (bc = 5 ∧ cfg.pullback_max_distance < dist)) ∧
    ((bc = 5 ∧ cfg.pullback_max_distance < dist) →
      (finalSignalCalc cfg bc sc dist ema).limit_order_price =
        (match ema with
          | some e =>
              if e ≠ 0 then some (roundTo (e * (1 + cfg.pullback_limit_offset / 100)) 4)
              else none
          | none => none)) ∧
    (¬(bc = 5 ∧ cfg.pullback_max_distance < dist) →
      (finalSignalCalc cfg bc sc dist ema).limit_order_price = none) := by
  unfold finalSignalCalc
  split_ifs with h1 h2 h3 h4 <;>
    refine ⟨?_, ?_, fun hc => ?_, fun hnc => ?_⟩ <;> simp_all

/-- With at least one session required above the moving averages, a full
5/5 buy state forces the latest close strictly above the latest fast EMA. -/
theorem ema_lt_price_of_buy (cfg : Config) (close : List ℚ) (stdFn : ℕ → ℚ)
    (hn : 1 ≤ close.length) (hd : 1 ≤ cfg.days_above_ma)
    (hb : (buyCondsOf cfg (indicatorsOf cfg close stdFn)).count = 5) :
    ema_at cfg.ema_fast_period (fun i => close.getD i 0) (close.length - 1) <
      close.getD (close.length - 1) 0 := by
  obtain ⟨h1, -, -, -, -⟩ := BuyConds.eq_five _ hb
  have h1' : (decide (cfg.days_above_ma ≤ (indicatorsOf cfg close stdFn).days_above_ema) &&
      decide (cfg.days_above_ma ≤ (indicatorsOf cfg close stdFn).days_above_sma)) = true := h1
  rw [Bool.and_eq_true, decide_eq_true_eq, decide_eq_true_eq] at h1'
  have hrw : (indicatorsOf cfg close stdFn).days_above_ema =
      count_days_above close (emaSeries cfg (fun i => close.getD i 0) close.length)
        10 := rfl
  have hcnt : 1 ≤ count_days_above close
      (emaSeries cfg (fun i => close.getD i 0) close.length) 10 := by
    rw [hrw] at h1'
    omega
  obtain ⟨p, m, hp, hm, hmp⟩ := count_days_above_pos hcnt
  rw [ilocNeg_one_getD close hn] at hp
  rw [ilocNeg_emaSeries cfg _ close.length hn] at hm
  obtain rfl := Option.some.inj hp
  obtain rfl := Option.some.inj (Option.some.inj hm)
  exact hmp

/-- **C2** — On the sufficient-data path (with at least one required session
above the MAs and a nonnegative pullback threshold, both true of the
defaults), PULLBACK holds iff `pullback_active` does, iff all 5 buy
conditions hold and `(price - ema_fast)/ema_fast·100` exceeds
`pullback_max_distance`; exactly then `limit_order_price` is
`round(ema_fast·(1 + pullback_limit_offset/100), 4)`, otherwise null. -/
theorem claim_C2 (cfg : Config) (close : List ℚ) (stdFn : ℕ → ℚ) (level : ℤ)
    (now : String) (h : cfg.sma_slow_period + 5 ≤ close.length)
    (hd : 1 ≤ cfg.days_above_ma) (hmd : 0 ≤ cfg.pullback_max_distance) :
    ((analyze_etf cfg close stdFn level now).final_signal = .PULLBACK ↔
      (analyze_etf cfg close stdFn level now).pullback_active = some true) ∧
    ((analyze_etf cfg close stdFn level now).final_signal = .PULLBACK ↔
      ((buyCondsOf cfg (indicatorsOf cfg close stdFn)).count = 5 ∧
        cfg.pullback_max_distance <
          (close.getD (close.length - 1) 0 -
              ema_at cfg.ema_fast_period (fun i => close.getD i 0)
                (close.length - 1)) /
            ema_at cfg.ema_fast_period (fun i => close.getD i 0)
              (close.length - 1) * 100)) ∧
    ((analyze_etf cfg close stdFn level now).final_signal = .PULLBACK →
      (analyze_etf cfg close stdFn level now).limit_order_price =
        some (roundTo
          (ema_at cfg.ema_fast_period (fun i => close.getD i 0) (close.length - 1) *
            (1 + cfg.pullback_limit_offset / 100)) 4)) ∧
    ((analyze_etf cfg close stdFn level now).final_signal ≠ .PULLBACK →
      (analyze_etf cfg close stdFn level now).limit_order_price = none) := by
  have hn : 1 ≤ close.length := by omega
  rw [analyze_etf_eq_ok cfg close stdFn level now h]
  obtain ⟨hfs, -, hpa, hlim⟩ := analyzeOk_decision cfg close stdFn level now
  have hemaC : (indicatorsOf cfg close stdFn).ema13_current =
      some (ema_at cfg.ema_fast_period (fun i => close.getD i 0)
        (close.length - 1)) := rfl
  rw [hemaC] at hfs hpa hlim
  rw [hfs, hpa, hlim]
  set e := ema_at cfg.ema_fast_period (fun i => close.getD i 0) (close.length - 1)
    with he
  set p := close.getD (close.length - 1) 0 with hp
  set B := (buyCondsOf cfg (indicatorsOf cfg close stdFn)).count with hB
  set S := (sellCondsOf cfg (indicatorsOf cfg close stdFn)).count with hS
  obtain ⟨hPiff, hPAiff, hLsome, hLnone⟩ :=
    finalSignalCalc_pullback cfg B S (distance_from_ema_of p (some e)) (some e)
  have hdist_iff : B = 5 →
      (cfg.pullback_max_distance < distance_from_ema_of p (some e) ↔
        cfg.pullback_max_distance < (p - e) / e * 100) := by
    intro hb5
    have hlt : e < p := ema_lt_price_of_buy cfg close stdFn hn hd hb5
    have hred : distance_from_ema_of p (some e) =
        if e ≠ 0 ∧ 0 < e then (p - e) / e * 100 else 0 := rfl
    rw [hred]
    by_cases hepos : 0 < e
    · rw [if_pos ⟨ne_of_gt hepos, hepos⟩]
    · rw [if_neg (by push_neg; intro _; exact le_of_not_lt hepos)]
      constructor
      · intro habs; exact absurd habs (not_lt.mpr hmd)
      · intro hform
        exfalso
        rcases lt_or_eq_of_le (le_of_not_lt hepos) with hneg | hzero
        · have hnum : 0 < p - e := sub_pos.mpr hlt
          have : (p - e) / e < 0 := div_neg_of_pos_of_neg hnum hneg
          have : (p - e) / e * 100 < 0 := by nlinarith
          exact absurd (lt_trans hform this) (not_lt.mpr hmd)
        · rw [hzero, div_zero, zero_mul] at hform
          exact absurd hform (not_lt.mpr hmd)
  have hsome_iff : ∀ b : Bool, (some b = some true) ↔ (b = true) := by
    intro b; exact Option.some_inj
  refine ⟨?_, ?_, ?_, ?_⟩
  · exact hPiff.trans ((hPAiff.symm).trans (hsome_iff _).symm)
  · exact hPiff.trans (and_congr_right fun hb5 => hdist_iff hb5)
  · intro hP
    have hC := hPiff.mp hP
    rw [hLsome hC]
    have hepos : 0 < e := by
      by_contra hneg
      push_neg at hneg
      have hdz : distance_from_ema_of p (some e) = 0 := by
        have hred : distance_from_ema_of p (some e) =
            if e ≠ 0 ∧ 0 < e then (p - e) / e * 100 else 0 := rfl
        rw [hred, if_neg (by push_neg; intro _; exact hneg)]
      rw [hdz] at hC
      exact absurd hC.2 (not_lt.mpr hmd)
    show (if e ≠ 0 then
        some (roundTo (e * (1 + cfg.pullback_limit_offset / 100)) 4) else none) = _
    rw [if_pos (ne_of_gt hepos)]
  · intro hnP
    exact hLnone fun hC => hnP (hPiff.mpr hC)

/-- Witness for C2 at the constant series (0/5 buy conditions: no PULLBACK,
`pullback_active = false`, no limit order price). -/
theorem claim_C2_witness :
    (defaultConfig.sma_slow_period + 5 ≤ constSeries.length ∧
      1 ≤ defaultConfig.days_above_ma ∧ 0 ≤ defaultConfig.pullback_max_distance) ∧
    ((analyze_etf defaultConfig constSeries stdZero 3 "2024-01-01 00:00").final_signal =
        .PULLBACK ↔
      (analyze_etf defaultConfig constSeries stdZero 3 "2024-01-01 00:00").pullback_active =
        some true) ∧
    ((analyze_etf defaultConfig constSeries stdZero 3 "2024-01-01 00:00").final_signal ≠
        .PULLBACK →
      (analyze_etf defaultConfig constSeries stdZero 3 "2024-01-01 00:00").limit_order_price =
        none) := by
  have hh := claim_C2 defaultConfig constSeries stdZero 3 "2024-01-01 00:00"
    (by decide) (by decide) (by decide)
  exact ⟨⟨by decide, by decide, by decide⟩, hh.1, hh.2.2.2⟩

/-- An RSI value inside the default buy band `[55, 65]` satisfies neither
default extreme (`> 75` or `< 25`). -/
theorem rsi_band (v : F)
    (hgood : (F.leb (.fin 55) v && F.leb v (.fin 65)) = true) :
    (F.ltb (.fin 75) v || F.ltb v (.fin 25)) = false := by
  rcases v with _ | _ | _ | q
  · simp [F.leb] at hgood
  · simp [F.leb] at hgood
  · simp [F.leb] at hgood
  · simp [F.leb] at hgood
    simp only [F.ltb, Bool.or_eq_false_iff, decide_eq_false_iff_not]
    constructor
    · linarith [hgood.2]
    · linarith [hgood.1]

/-- **C9** — Under the default configuration, a full 5/5 buy state forces
all three sell conditions false: golden cross excludes death cross, RSI in
`[55, 65]` excludes the extremes, and a positive above-count forces the
below-count to 0. -/
theorem claim_C9 (close : List ℚ) (stdFn : ℕ → ℚ) (level : ℤ) (now : String)
    (h : defaultConfig.sma_slow_period + 5 ≤ close.length)
    (hb : (analyze_etf defaultConfig close stdFn level now).buy_count = some 5) :
    (analyze_etf defaultConfig close stdFn level now).sell_count = some 0 := by
  rw [analyze_etf_eq_ok _ _ _ _ _ h] at hb ⊢
  rw [analyzeOk_buy_count] at hb
  rw [analyzeOk_sell_count]
  have hb5 : (buyCondsOf defaultConfig (indicatorsOf defaultConfig close stdFn)).count =
      5 := Option.some.inj hb
  obtain ⟨h1, h2, h3, -, -⟩ := BuyConds.eq_five _ hb5
  -- sell condition 1 is false: the price closed above the fast EMA, so the
  -- below-count stops at its first step.
  have h1' : (decide (defaultConfig.days_above_ma ≤
        (indicatorsOf defaultConfig close stdFn).days_above_ema) &&
      decide (defaultConfig.days_above_ma ≤
        (indicatorsOf defaultConfig close stdFn).days_above_sma)) = true := h1
  rw [Bool.and_eq_true, decide_eq_true_eq, decide_eq_true_eq] at h1'
  have habe : (indicatorsOf defaultConfig close stdFn).days_above_ema =
      count_days_above close
        (emaSeries defaultConfig (fun i => close.getD i 0) close.length) 10 := rfl
  have hbelow : count_days_below close
      (emaSeries defaultConfig (fun i => close.getD i 0) close.length) 10 = 0 := by
    apply count_days_below_of_above
    rw [habe] at h1'
    have hd : 1 ≤ defaultConfig.days_above_ma := by decide
    omega
  have hs1 : (sellCondsOf defaultConfig
      (indicatorsOf defaultConfig close stdFn)).price_below_ma_3days = false := by
    have e1 : (sellCondsOf defaultConfig
        (indicatorsOf defaultConfig close stdFn)).price_below_ma_3days =
        (decide (defaultConfig.days_above_ma ≤
            (indicatorsOf defaultConfig close stdFn).days_below_ema) &&
          decide (defaultConfig.days_above_ma ≤
            (indicatorsOf defaultConfig close stdFn).days_below_sma)) := rfl
    have e2 : (indicatorsOf defaultConfig close stdFn).days_below_ema =
        count_days_below close
          (emaSeries defaultConfig (fun i => close.getD i 0) close.length) 10 := rfl
    rw [e1, e2, hbelow]
    rw [show decide (defaultConfig.days_above_ma ≤ (0 : ℕ)) = false from by decide,
      Bool.false_and]
  -- sell condition 2 is false: the crossover is golden, not death.
  have hco : (indicatorsOf defaultConfig close stdFn).crossover = .golden_cross := by
    have h2' : decide ((indicatorsOf defaultConfig close stdFn).crossover =
        .golden_cross) = true := h2
    exact of_decide_eq_true h2'
  have hs2 : (sellCondsOf defaultConfig
      (indicatorsOf defaultConfig close stdFn)).death_cross = false := by
    have e2 : (sellCondsOf defaultConfig
        (indicatorsOf defaultConfig close stdFn)).death_cross =
        decide ((indicatorsOf defaultConfig close stdFn).crossover = .death_cross) :=
      rfl
    rw [e2, hco]
    decide
  -- sell condition 3 is false: RSI in [55, 65] is at neither extreme.
  have h3' : (match (indicatorsOf defaultConfig close stdFn).rsi_current with
      | some v => F.leb (.fin 55) v && F.leb v (.fin 65)
      | none => false) = true := h3
  have hs3 : (sellCondsOf defaultConfig
      (indicatorsOf defaultConfig close stdFn)).rsi_extreme = false := by
    have e3 : (sellCondsOf defaultConfig
        (indicatorsOf defaultConfig close stdFn)).rsi_extreme =
        (match (indicatorsOf defaultConfig close stdFn).rsi_current with
          | some v => F.ltb (.fin 75) v || F.ltb v (.fin 25)
          | none => false) := rfl
    rcases hrc : (indicatorsOf defaultConfig close stdFn).rsi_current with _ | v
    · rw [e3]; simp only [hrc]
    · rw [hrc] at h3'
      rw [e3]
      simp only [hrc]
      exact rsi_band v h3'
  have hcount : (sellCondsOf defaultConfig
      (indicatorsOf defaultConfig close stdFn)).count = 0 := by
    unfold SellConds.count
    rw [hs1, hs2, hs3]
    decide
  rw [hcount]

/-- Witness for C9: the 55-session `buySeries` satisfies all five buy
conditions under the defaults and indeed has a zero sell count. -/
theorem claim_C9_witness :
    defaultConfig.sma_slow_period + 5 ≤ buySeries.length ∧
      (analyze_etf defaultConfig buySeries stdRising 3 "2024-01-01 00:00").buy_count =
        some 5 ∧
      (analyze_etf defaultConfig buySeries stdRising 3 "2024-01-01 00:00").sell_count =
        some 0 := by
  have hb : (analyze_etf defaultConfig buySeries stdRising 3 "2024-01-01 00:00").buy_count =
      some 5 := by decide
  exact ⟨by decide, hb,
    claim_C9 buySeries stdRising 3 "2024-01-01 00:00" (by decide) hb⟩

theorem comAlpha_le_one (c : ℕ) : comAlpha c ≤ 1 := by
  unfold comAlpha
  rw [div_le_one (by positivity)]
  have : (0 : ℚ) ≤ (c : ℚ) := Nat.cast_nonneg c
  linarith

theorem ewmNum_nonneg (α : ℚ) (x : ℕ → ℚ) (hα : α ≤ 1) (hx : ∀ i, 0 ≤ x i) :
    ∀ t, 0 ≤ ewmNum α x t := by
  intro t
  induction t with
  | zero => exact hx 0
  | succ t ih =>
      show 0 ≤ (1 - α) * ewmNum α x t + x (t + 1)
      have h1 : (0 : ℚ) ≤ 1 - α := by linarith
      exact add_nonneg (mul_nonneg h1 ih) (hx (t + 1))

theorem ewmDen_pos (α : ℚ) (hα : α ≤ 1) : ∀ t, 0 < ewmDen α t := by
  intro t
  induction t with
  | zero => exact one_pos
  | succ t ih =>
      show 0 < (1 - α) * ewmDen α t + 1
      have h1 : (0 : ℚ) ≤ 1 - α := by linarith
      nlinarith

theorem rsi_gains_nonneg (x : ℕ → ℚ) (t : ℕ) : 0 ≤ rsi_gains x t := by
  unfold rsi_gains
  split_ifs with hc
  · exact le_of_lt hc.2
  · rfl

/-- With a zero smoothed average loss, `calculate_rsi` evaluates to `NaN`
when the smoothed average gain is zero too (`0/0`), and saturates to the
numeric value 100 when the gain is positive (`rs = +inf`); no exception in
either case. -/
theorem rsi_at_avg_loss_zero (cfg : Config) (x : ℕ → ℚ) (t : ℕ)
    (hl : avg_loss cfg x t = some 0) :
    rsi_at cfg x t =
      if avg_gain cfg x t = some 0 then F.nan else F.fin 100 := by
  have hcond : ¬(t + 1 < cfg.rsi_period) := by
    unfold avg_loss at hl
    by_cases hc : t + 1 < cfg.rsi_period
    · rw [if_pos hc] at hl; exact absurd hl (by simp)
    · exact hc
  have hg : avg_gain cfg x t =
      some (ewmMean (comAlpha (cfg.rsi_period - 1)) (rsi_gains x) t) := by
    unfold avg_gain
    rw [if_neg hcond]
  have hg0 : 0 ≤ ewmMean (comAlpha (cfg.rsi_period - 1)) (rsi_gains x) t := by
    unfold ewmMean
    exact div_nonneg
      (ewmNum_nonneg _ _ (comAlpha_le_one _) (rsi_gains_nonneg _) _)
      (le_of_lt (ewmDen_pos _ (comAlpha_le_one _) _))
  unfold rsi_at
  rw [hg, hl]
  by_cases hgz : ewmMean (comAlpha (cfg.rsi_period - 1)) (rsi_gains x) t = 0
  · rw [if_pos (by rw [hgz]), hgz]
    decide
  · rw [if_neg (fun hc => hgz (Option.some.inj hc))]
    have hgpos : 0 < ewmMean (comAlpha (cfg.rsi_period - 1)) (rsi_gains x) t :=
      lt_of_le_of_ne hg0 (Ne.symm hgz)
    have hdiv : F.div
        (.fin (ewmMean (comAlpha (cfg.rsi_period - 1)) (rsi_gains x) t))
        (.fin 0) = .inf := by
      show (if (0 : ℚ) = 0 then
          (if ewmMean (comAlpha (cfg.rsi_period - 1)) (rsi_gains x) t = 0
            then F.nan
            else if ewmMean (comAlpha (cfg.rsi_period - 1)) (rsi_gains x) t > 0
              then F.inf else F.ninf)
        else F.fin (ewmMean (comAlpha (cfg.rsi_period - 1)) (rsi_gains x) t / 0)) =
          F.inf
      rw [if_pos rfl, if_neg hgz, if_pos hgpos]
    show F.sub (.fin 100) (F.div (.fin 100) (F.add (.fin 1)
      (F.div (.fin (ewmMean (comAlpha (cfg.rsi_period - 1)) (rsi_gains x) t))
        (.fin 0)))) = F.fin 100
    rw [hdiv]
    decide

/-- While the smoothed average loss is undefined (the RSI warm-up window),
`calculate_rsi` is `NaN`. -/
theorem rsi_at_warmup (cfg : Config) (x : ℕ → ℚ) (t : ℕ)
    (hnone : avg_loss cfg x t = none) : rsi_at cfg x t = F.nan := by
  have hgnone : avg_gain cfg x t = none := by
    unfold avg_loss at hnone
    unfold avg_gain
    by_cases hc : t + 1 < cfg.rsi_period
    · rw [if_pos hc]
    · rw [if_neg hc] at hnone
      exact absurd hnone (by simp)
  unfold rsi_at
  rw [hnone, hgnone]
  rfl

/-- **C6 (amended)** — Behind the minimum-data gate, when the smoothed
average loss at the latest point is exactly zero, the RSI is `NaN` (and the
output field null) only if the smoothed average gain is zero as well;
otherwise `rs = avg_gain/0` is `+inf` under the pandas division semantics
(no exception) and the RSI saturates to the numeric value 100, which is
what the record reports.  While `avg_loss` is undefined (warm-up), the RSI
is `NaN`. -/
theorem claim_C6 (cfg : Config) (close : List ℚ) (stdFn : ℕ → ℚ) (level : ℤ)
    (now : String) (h : cfg.sma_slow_period + 5 ≤ close.length)
    (hl : avg_loss cfg (fun i => close.getD i 0) (close.length - 1) = some 0) :
    (rsi_at cfg (fun i => close.getD i 0) (close.length - 1) =
      if avg_gain cfg (fun i => close.getD i 0) (close.length - 1) = some 0
      then F.nan else F.fin 100) ∧
    ((analyze_etf cfg close stdFn level now).rsi =
      if avg_gain cfg (fun i => close.getD i 0) (close.length - 1) = some 0
      then none else some (F.fin 100)) ∧
    (∀ t, avg_loss cfg (fun i => close.getD i 0) t = none →
      rsi_at cfg (fun i => close.getD i 0) t = F.nan) := by
  have hmain := rsi_at_avg_loss_zero cfg (fun i => close.getD i 0)
    (close.length - 1) hl
  refine ⟨hmain, ?_, fun t hnone => rsi_at_warmup cfg _ t hnone⟩
  rw [analyze_etf_eq_ok cfg close stdFn level now h]
  have hfmt := (analyzeOk_fmt cfg close stdFn level now).2.2.1
  rw [hfmt]
  have hcur : (indicatorsOf cfg close stdFn).rsi_current =
      (match rsi_at cfg (fun i => close.getD i 0) (close.length - 1) with
        | .nan => none
        | v => some v) := rfl
  by_cases hgz : avg_gain cfg (fun i => close.getD i 0) (close.length - 1) = some 0
  · rw [if_pos hgz] at hmain
    rw [if_pos hgz, hcur, hmain]
    rfl
  · rw [if_neg hgz] at hmain
    rw [if_neg hgz, hcur, hmain]
    decide

/-- Witness for C6 at the strictly increasing 55-session series (every
delta a gain, so the average loss is exactly 0 and the average gain is
positive: the reported RSI is the numeric 100). -/
theorem claim_C6_witness :
    (defaultConfig.sma_slow_period + 5 ≤ incSeries.length ∧
      avg_loss defaultConfig (fun i => incSeries.getD i 0) (incSeries.length - 1) =
        some 0) ∧
      (analyze_etf defaultConfig incSeries stdZero 3 "2024-01-01 00:00").rsi =
        (if avg_gain defaultConfig (fun i => incSeries.getD i 0)
            (incSeries.length - 1) = some 0
          then none else some (F.fin 100)) := by
  exact ⟨⟨by decide, by decide⟩,
    (claim_C6 defaultConfig incSeries stdZero 3 "2024-01-01 00:00"
      (by decide) (by decide)).2.1⟩

/-- Counterexample to C6 as stated: at the last index of the increasing
series the smoothed average loss is exactly zero and the point is past the
warm-up, yet `calculate_rsi` yields the numeric value 100 — not null — and
`analyze_etf` reports `rsi = 100`. -/
theorem claim_C6_counterexample :
    avg_loss defaultConfig (fun i => incSeries.getD i 0) 54 = some 0 ∧
      rsi_at defaultConfig (fun i => incSeries.getD i 0) 54 = F.fin 100 ∧
      (analyze_etf defaultConfig incSeries stdZero 3 "2024-01-01 00:00").rsi =
        some (F.fin 100) := by
  refine ⟨by decide, by decide, by decide⟩

/-- **C8** — For every well-typed input (any finite price list, any integer
level, any configuration) `analyze_etf` returns a result record — the
embedding is a total function, with every division hazard modelled by the
non-raising pandas/NumPy semantics of `F` — whose `data_status` is
`insufficient` exactly below the minimum-data gate and `ok` otherwise;
and each individual hazard degrades to a default rather than raising:
an undefined Bollinger middle or one `≤ 0` gives `width = 0`, an undefined
or non-positive band range gives `%B = 1/2`, an undefined or non-positive
fast EMA gives `distance_from_ema = 0`, an undefined average loss (warm-up)
gives a `NaN` RSI, and a zero average loss gives `NaN` or the saturated
value 100, never an exception. -/
theorem claim_C8 (cfg : Config) (close : List ℚ) (stdFn : ℕ → ℚ) (level : ℤ)
    (now : String) :
    (∃ r : AnalysisResult, analyze_etf cfg close stdFn level now = r) ∧
    ((analyze_etf cfg close stdFn level now).data_status = .insufficient ∨
      (analyze_etf cfg close stdFn level now).data_status = .ok) ∧
    ((analyze_etf cfg close stdFn level now).data_status = .insufficient ↔
      close.length < cfg.sma_slow_period + 5) ∧
    (∀ x t, bb_middle_at cfg x t = none → bb_width_at cfg x stdFn t = 0) ∧
    (∀ x t m, bb_middle_at cfg x t = some m → m ≤ 0 →
      bb_width_at cfg x stdFn t = 0) ∧
    (∀ x t, bb_std_at cfg stdFn t = none → bb_pct_b_at cfg x stdFn t = 1 / 2) ∧
    (∀ x t m s, bb_middle_at cfg x t = some m → bb_std_at cfg stdFn t = some s →
      (m + s * cfg.bb_std) - (m - s * cfg.bb_std) ≤ 0 →
      bb_pct_b_at cfg x stdFn t = 1 / 2) ∧
    (∀ p : ℚ, distance_from_ema_of p none = 0) ∧
    (∀ p e : ℚ, e ≤ 0 → distance_from_ema_of p (some e) = 0) ∧
    (∀ x t, avg_loss cfg x t = none → rsi_at cfg x t = F.nan) ∧
    (∀ x t, avg_loss cfg x t = some 0 →
      rsi_at cfg x t = if avg_gain cfg x t = some 0 then F.nan else F.fin 100) := by
  refine ⟨⟨_, rfl⟩, ?_, ?_, ?_, ?_, ?_, ?_, ?_, ?_, ?_, ?_⟩
  · by_cases hlen : close.length < cfg.sma_slow_period + 5
    · rw [analyze_etf_eq_insufficient cfg close stdFn level now hlen]
      exact Or.inl rfl
    · rw [analyze_etf_eq_ok cfg close stdFn level now (by omega)]
      exact Or.inr rfl
  · by_cases hlen : close.length < cfg.sma_slow_period + 5
    · rw [analyze_etf_eq_insufficient cfg close stdFn level now hlen]
      exact ⟨fun _ => hlen, fun _ => rfl⟩
    · rw [analyze_etf_eq_ok cfg close stdFn level now (by omega)]
      constructor
      · intro hc
        rw [show (analyzeOk cfg close stdFn level now).data_status = .ok from rfl] at hc
        exact absurd hc (by decide)
      · intro hc
        exact absurd hc hlen
  · intro x t hmid
    unfold bb_width_at
    rw [hmid]
  · intro x t m hmid hm0
    have hstd : bb_std_at cfg stdFn t = some (stdFn t) := by
      unfold bb_middle_at sma_at at hmid
      unfold bb_std_at
      by_cases hc : t + 1 < cfg.bb_period
      · rw [if_pos hc] at hmid; exact absurd hmid (by simp)
      · rw [if_neg hc]
    unfold bb_width_at
    simp only [hmid, hstd]
    rw [if_neg (not_lt.mpr hm0)]
  · intro x t hstd
    have hmid : bb_middle_at cfg x t = none := by
      unfold bb_std_at at hstd
      unfold bb_middle_at sma_at
      by_cases hc : t + 1 < cfg.bb_period
      · rw [if_pos hc]
      · rw [if_neg hc] at hstd; exact absurd hstd (by simp)
    unfold bb_pct_b_at
    rw [hmid]
  · intro x t m s hmid hstd hrange
    unfold bb_pct_b_at
    simp only [hmid, hstd]
    rw [if_neg (not_lt.mpr hrange)]
  · intro p
    rfl
  · intro p e he
    show (if e ≠ 0 ∧ 0 < e then (p - e) / e * 100 else 0) = 0
    rw [if_neg (by rintro ⟨-, h2⟩; exact absurd h2 (not_lt.mpr he))]
  · exact fun x t hnone => rsi_at_warmup cfg x t hnone
  · exact fun x t hzero => rsi_at_avg_loss_zero cfg x t hzero

/-- Witness for C8 at concrete inputs: the empty series returns an
insufficient record (no exception), the 55-session constant series an `ok`
one, and the hazard guards evaluate to their defaults at index 3 (inside
the Bollinger warm-up). -/
theorem claim_C8_witness :
    (analyze_etf defaultConfig [] stdZero 1 "2024-01-01 00:00").data_status =
        .insufficient ∧
      (analyze_etf defaultConfig constSeries stdZero 1 "2024-01-01 00:00").data_status =
        .ok ∧
      bb_width_at defaultConfig (fun _ => (1 : ℚ)) stdZero 3 = 0 ∧
      bb_pct_b_at defaultConfig (fun _ => (1 : ℚ)) stdZero 3 = 1 / 2 ∧
      distance_from_ema_of 100 (some (-1)) = 0 ∧
      rsi_at defaultConfig (fun _ => (1 : ℚ)) 3 = F.nan := by
  have h1 := claim_C8 defaultConfig [] stdZero 1 "2024-01-01 00:00"
  have h2 := claim_C8 defaultConfig constSeries stdZero 1 "2024-01-01 00:00"
  exact ⟨(h1.2.2.1).mpr (by decide),
    by
      rcases h2.2.1 with hok | hok
      · exact absurd ((h2.2.2.1).mp hok) (by decide)
      · exact hok,
    h1.2.2.2.1 (fun _ => (1 : ℚ)) 3 (by decide),
    h1.2.2.2.2.2.1 (fun _ => (1 : ℚ)) 3 (by decide),
    h1.2.2.2.2.2.2.2.2.1 100 (-1) (by decide),
    h1.2.2.2.2.2.2.2.2.2.1 (fun _ => (1 : ℚ)) 3 (by decide)⟩

section SmokeTest

example : roundTo (25/2) 0 = 12 := by decide
example : roundTo (27/2) 0 = 14 := by decide
example : roundTo (123456/100000) 4 = 12346/10000 := by decide
example : F.div (.fin 1) (.fin 0) = .inf := by decide
example : F.div (.fin 0) (.fin 0) = .nan := by decide
example : F.sub (.fin 100) (F.div (.fin 100) (F.add (.fin 1) F.inf)) = .fin 100 := by
  decide
example : ilocNeg [1, 2, 3] 1 = some 3 := by decide

end SmokeTest
